import Mathlib

/-!
# sequential-line-search: the preference regressor

A shallow embedding of `src/src/preference-regressor.cpp`: the MAP objective and its
gradient, the construction of the regressor, `compute_MAP`, and the posterior queries
`estimate_y`, `estimate_s` and `find_arg_max`.

Conventions of the embedding.

* `double` is idealised as an element of a linearly ordered field `S`; rounding is not
  modelled.  All definitions are generic in `S`, so they run on `ℚ` and can be read on `ℝ`.
* `Eigen::VectorXd` is a list of scalars, `Eigen::MatrixXd` a row count together with the
  list of its columns.  Eigen asserts that the sizes of the operands of a product or of a
  block assignment agree; the model is written for operands whose sizes agree.
* Code that is not part of the translated file is taken as a parameter: the functions of
  libm (`CMath`), and the kernel routines of `Regressor`, the BTL functions of `utils`,
  Eigen's `inverse` and `determinant` and the solver `nloptutil::solve` (`Routines`).
* The macros `VERBOSE` and `NOISELESS` are not defined (lines 12 and 13 are comments), so
  the embedding follows the branches compiled without them.
-/

namespace sequential_line_search

/-! ## Eigen vectors and matrices -/

/-- The type `Eigen::VectorXd`: a column vector whose size is known at run time. -/
abbrev VectorXd (S : Type) := List S

/-- The type `Eigen::MatrixXd`: `rows` is the number of rows, `columns` lists the columns. -/
structure MatrixXd (S : Type) where
  rows : Nat
  columns : List (VectorXd S)
deriving DecidableEq

/-- The type `Preference`: a sequence of column indices into the sample matrix. -/
abbrev Preference := List Nat

section Eigen

variable {S : Type} [LinearOrderedField S]

/-- The default-constructed matrix, of size 0 x 0. -/
def MatrixXd.empty : MatrixXd S := ⟨0, []⟩

/-- The member `cols()`. -/
def MatrixXd.cols (A : MatrixXd S) : Nat := A.columns.length

/-- The member `col(j)`. -/
def MatrixXd.col (A : MatrixXd S) (j : Nat) : VectorXd S := A.columns.getD j []

/-- The coefficient `A(i, j)`. -/
def MatrixXd.coeff (A : MatrixXd S) (i j : Nat) : S := (A.col j).getD i 0

/-- The coefficient `v(i)`. -/
def VectorXd.coeff (v : VectorXd S) (i : Nat) : S := v.getD i 0

/-- The vector `VectorXd::Constant(n, c)`. -/
def VectorXd.Constant (n : Nat) (c : S) : VectorXd S := List.replicate n c

/-- The block `v.block(start, 0, n, 1)` read as a value. -/
def VectorXd.block (v : VectorXd S) (start n : Nat) : VectorXd S := (v.drop start).take n

/-- The assignment `v.block(start, 0, n, 1) = src`: entry `start + i` receives `src(i)`
for every `i < n`. -/
def VectorXd.setBlock (v : VectorXd S) (start n : Nat) (src : VectorXd S) : VectorXd S :=
  (List.range n).foldl (fun acc i => acc.set (start + i) (VectorXd.coeff src i)) v

/-- The inner product of two vectors of the same size. -/
def VectorXd.dot (u v : VectorXd S) : S := (List.zipWith (fun p q => p * q) u v).sum

/-- The product `c * v` of a scalar and a vector. -/
def VectorXd.scale (c : S) (v : VectorXd S) : VectorXd S := v.map (fun p => c * p)

/-- The sum `u + v` of two vectors of the same size. -/
def VectorXd.add (u v : VectorXd S) : VectorXd S := List.zipWith (fun p q => p + q) u v

/-- The quotient `v / c` of a vector by a scalar. -/
def VectorXd.divScalar (v : VectorXd S) (c : S) : VectorXd S := v.map (fun p => p / c)

/-- The product `u.transpose() * A` of a row vector and a matrix, as the list of its
entries: one inner product per column of `A`. -/
def MatrixXd.rowTimes (u : VectorXd S) (A : MatrixXd S) : VectorXd S :=
  A.columns.map (fun c => VectorXd.dot u c)

/-- The row `i` of a matrix. -/
def MatrixXd.row (A : MatrixXd S) (i : Nat) : VectorXd S :=
  A.columns.map (fun c => VectorXd.coeff c i)

/-- The product `A * v` of a matrix and a column vector. -/
def MatrixXd.mulVec (A : MatrixXd S) (v : VectorXd S) : VectorXd S :=
  (List.range A.rows).map (fun i => VectorXd.dot (A.row i) v)

/-- The product `A * B` of two matrices. -/
def MatrixXd.mul (A B : MatrixXd S) : MatrixXd S :=
  ⟨A.rows, B.columns.map (fun c => A.mulVec c)⟩

/-- The matrix `-A`. -/
def MatrixXd.neg (A : MatrixXd S) : MatrixXd S :=
  ⟨A.rows, A.columns.map (fun c => c.map (fun p => -p))⟩

/-- The member `trace()`: the sum of the diagonal coefficients. -/
def MatrixXd.trace (A : MatrixXd S) : S :=
  ((List.range A.rows).map (fun i => A.coeff i i)).sum

/-- The visitor behind `maxCoeff(&index)`: it starts from coefficient 0 and moves to a
later coefficient only when that one is strictly greater than the best seen so far.
The state is the best value and its index; `i` is the index of the head of the list. -/
def VectorXd.maxVisit : VectorXd S → Nat → S × Nat → S × Nat
  | [], _, best => best
  | value :: rest, i, best =>
      VectorXd.maxVisit rest (i + 1) (if value > best.1 then (value, i) else best)

/-- The index that `v.maxCoeff(&index)` stores, for a vector with at least one entry. -/
def VectorXd.maxCoeffIndex (v : VectorXd S) : Nat :=
  match v with
  | [] => 0
  | v0 :: rest => (VectorXd.maxVisit rest 1 (v0, 0)).2

end Eigen

/-! ## Code outside the translated file -/

/-- The functions of `<cmath>` that the regressor calls, and the constant `M_PI`. -/
structure CMath (S : Type) where
  log : S → S
  exp : S → S
  sqrt : S → S
  pi : S

/-- The routines that `preference-regressor.cpp` calls and that live elsewhere: the static
members of `Regressor` (kernel matrix, cross-covariance vector, derivatives of the kernel
matrix), `utils::BTL` and `utils::derivative_BTL`, Eigen's `inverse()` and `determinant()`,
and `nloptutil::solve`.  The arguments of `solve` are those of the call at line 279, in
its order: the initial point, the upper bounds, the lower bounds, the objective callback
(which receives the regressor through `data`) and the evaluation budget; the algorithm is
always `LD_TNEWTON`. -/
structure Routines (S : Type) where
  calc_C : MatrixXd S → S → S → VectorXd S → MatrixXd S
  calc_k : VectorXd S → MatrixXd S → S → S → VectorXd S → VectorXd S
  calc_C_grad_a : MatrixXd S → S → S → VectorXd S → MatrixXd S
  calc_C_grad_b : MatrixXd S → S → S → VectorXd S → MatrixXd S
  calc_C_grad_r_i : MatrixXd S → S → S → VectorXd S → Nat → MatrixXd S
  BTL : VectorXd S → S → S
  derivative_BTL : VectorXd S → S → VectorXd S
  inverse : MatrixXd S → MatrixXd S
  determinant : MatrixXd S → S
  solve : VectorXd S → VectorXd S → VectorXd S →
    (VectorXd S → VectorXd S → S × VectorXd S) → Nat → VectorXd S

section Model

variable {S : Type} [LinearOrderedField S]

/-- The function `std::sqrt` on the idealised scalars: a negative argument is a domain
error, for which the C++ function returns NaN; NaN is `none`. -/
def std_sqrt (m : CMath S) (x : S) : Option S :=
  if x < 0 then none else some (m.sqrt x)

/-- Modelled from the spec: `utils::log_normal(x, mu, sigma_squared)`, declared in
`utils.h`, which is not among the sources.  The spec asks for a log-normal prior with the
given prior variance: the density of the log-normal distribution whose logarithm has mean
`mu` and variance `sigma_squared`. -/
def log_normal (m : CMath S) (x mu sigma_squared : S) : S :=
  1 / (x * m.sqrt (2 * m.pi * sigma_squared)) *
    m.exp (-((m.log x - mu) ^ 2) / (2 * sigma_squared))

/-! ## The regressor object -/

/-- The data members of `PreferenceRegressor` that the translated file reads or writes. -/
structure PreferenceRegressor (S : Type) where
  use_MAP_hyperparameters : Bool
  X : MatrixXd S
  D : List Preference
  w : VectorXd S
  y : VectorXd S
  a : S
  b : S
  r : VectorXd S
  C : MatrixXd S
  C_inv : MatrixXd S
  m_default_a : S
  m_default_r : S
  m_default_b : S
  m_variance : S
  m_btl_scale : S

/-- The arguments of one call of `nloptutil::solve`, named by the position they are
passed in: initial point, upper bounds, lower bounds, evaluation budget. -/
structure SolveCall (S : Type) where
  x_initial : VectorXd S
  upper : VectorXd S
  lower : VectorXd S
  max_evaluations : Nat
deriving DecidableEq

/-! ## Posterior queries -/

/-- The method `PreferenceRegressor::estimate_y`. -/
def PreferenceRegressor.estimate_y (R : Routines S) (self : PreferenceRegressor S)
    (x : VectorXd S) : S :=
  let k := R.calc_k x self.X self.a self.b self.r
  VectorXd.dot (MatrixXd.rowTimes k self.C_inv) self.y

/-- The argument that `estimate_s` hands to `std::sqrt`. -/
def PreferenceRegressor.variance_arg (R : Routines S) (self : PreferenceRegressor S)
    (x : VectorXd S) : S :=
  let k := R.calc_k x self.X self.a self.b self.r
  self.a + self.b - VectorXd.dot (MatrixXd.rowTimes k self.C_inv) k

/-- The method `PreferenceRegressor::estimate_s`. -/
def PreferenceRegressor.estimate_s (m : CMath S) (R : Routines S)
    (self : PreferenceRegressor S) (x : VectorXd S) : Option S :=
  std_sqrt m (self.variance_arg R x)

/-- The method `PreferenceRegressor::find_arg_max`. -/
def PreferenceRegressor.find_arg_max (self : PreferenceRegressor S) : VectorXd S :=
  let i := VectorXd.maxCoeffIndex self.y
  self.X.col i

/-! ## The MAP objective and its gradient -/

/-- The expression `0.5 * y.transpose() * C_inv * C_grad * C_inv * y
- 0.5 * (C_inv * C_grad).trace()` that `calc_grad_a`, `calc_grad_b` and `calc_grad_r`
each evaluate; the products associate to the left. -/
def log_p_f_theta_grad (y : VectorXd S) (C_inv C_grad : MatrixXd S) : S :=
  VectorXd.dot
      (MatrixXd.rowTimes (MatrixXd.rowTimes (MatrixXd.rowTimes (VectorXd.scale 0.5 y) C_inv)
        C_grad) C_inv) y
    - 0.5 * (MatrixXd.mul C_inv C_grad).trace

/-- The function `calc_grad_a`. -/
def calc_grad_a (m : CMath S) (R : Routines S) (y : VectorXd S) (C_inv X : MatrixXd S)
    (a b : S) (r : VectorXd S) (a_prior_mean a_prior_variance : S) : S :=
  let C_grad_a := R.calc_C_grad_a X a b r
  let log_p_f_theta_grad_a := log_p_f_theta_grad y C_inv C_grad_a
  let log_prior := (m.log a_prior_mean - a_prior_variance - m.log a) / (a_prior_variance * a)
  log_p_f_theta_grad_a + log_prior

/-- The function `calc_grad_b`. -/
def calc_grad_b (m : CMath S) (R : Routines S) (y : VectorXd S) (C_inv X : MatrixXd S)
    (a b : S) (r : VectorXd S) (b_prior_mean b_prior_variance : S) : S :=
  let C_grad_b := R.calc_C_grad_b X a b r
  let log_p_f_theta_grad_b := log_p_f_theta_grad y C_inv C_grad_b
  let log_prior := (m.log b_prior_mean - b_prior_variance - m.log b) / (b_prior_variance * b)
  log_p_f_theta_grad_b + log_prior

/-- The function `calc_grad_r`: a zero vector, a first loop adding the kernel term to
every entry and a second loop adding the prior term. -/
def calc_grad_r (m : CMath S) (R : Routines S) (y : VectorXd S) (C_inv X : MatrixXd S)
    (a b : S) (r : VectorXd S) (r_prior_mean r_prior_variance : S) : VectorXd S :=
  let grad0 : VectorXd S := VectorXd.Constant r.length 0
  let grad1 := (List.range r.length).foldl
    (fun grad i =>
      let C_grad_r := R.calc_C_grad_r_i X a b r i
      let log_p_f_theta_grad_r_i := log_p_f_theta_grad y C_inv C_grad_r
      grad.set i (VectorXd.coeff grad i + log_p_f_theta_grad_r_i)) grad0
  (List.range r.length).foldl
    (fun grad i =>
      let log_prior :=
        (m.log r_prior_mean - r_prior_variance - m.log (VectorXd.coeff r i))
          / (r_prior_variance * VectorXd.coeff r i)
      grad.set i (VectorXd.coeff grad i + log_prior)) grad1

set_option linter.unusedVariables false in
/-- The function `calc_log_likelihood`; its parameter `w` is not used by the body. -/
def calc_log_likelihood (m : CMath S) (R : Routines S) (p : Preference) (w : S)
    (y : VectorXd S) (btl_scale : S) : S :=
  let tmp : VectorXd S := p.map (fun idx => VectorXd.coeff y idx)
  m.log (R.BTL tmp btl_scale)

/-- The loop of `objective` that accumulates the per-preference derivatives into `grad_y`
(lines 160 to 178). -/
def objective_grad_y_data (R : Routines S) (D : List Preference) (w y : VectorXd S)
    (btl_scale : S) : VectorXd S :=
  (List.range D.length).foldl
    (fun grad_y i =>
      let p : Preference := D.getD i []
      let s := btl_scale * VectorXd.coeff w i
      let tmp1 : VectorXd S := p.map (fun idx => VectorXd.coeff y idx)
      let tmp2 := VectorXd.divScalar (R.derivative_BTL tmp1 s) (R.BTL tmp1 s)
      (List.range p.length).foldl
        (fun g k => g.set (p.getD k 0) (VectorXd.coeff g (p.getD k 0) + VectorXd.coeff tmp2 k))
        grad_y)
    (VectorXd.Constant y.length 0)

/-- The loop of `objective` that adds up the log likelihood of the data (lines 120
to 126), starting from `obj = 0.0`. -/
def objective_data_term (m : CMath S) (R : Routines S) (D : List Preference)
    (w y : VectorXd S) (btl_scale : S) : S :=
  (List.range D.length).foldl
    (fun obj i => obj + calc_log_likelihood m R (D.getD i []) (VectorXd.coeff w i) y btl_scale)
    (0 : S)

/-- The sum `term1 + term2 + term3` of `objective`, the log density of `y` under the
Gaussian prior (lines 131 to 135); `M` is the number of sample points. -/
def objective_y_term (m : CMath S) (R : Routines S) (C C_inv : MatrixXd S) (M : Nat)
    (y : VectorXd S) : S :=
  let C_det := R.determinant C
  let term1 := VectorXd.dot (MatrixXd.rowTimes (VectorXd.scale (-0.5) y) C_inv) y
  let term2 := -0.5 * m.log C_det
  let term3 := -0.5 * (M : S) * m.log (2.0 * m.pi)
  term1 + term2 + term3

/-- The local `a` of `objective` (line 110). -/
def objective_a (regressor : PreferenceRegressor S) (x : VectorXd S) : S :=
  if regressor.use_MAP_hyperparameters then VectorXd.coeff x (regressor.X.cols + 0)
  else regressor.m_default_a

/-- The local `b` of `objective` (line 114). -/
def objective_b (regressor : PreferenceRegressor S) (x : VectorXd S) : S :=
  if regressor.use_MAP_hyperparameters then VectorXd.coeff x (regressor.X.cols + 1)
  else regressor.m_default_b

/-- The local `r` of `objective` (lines 116 to 118). -/
def objective_r (regressor : PreferenceRegressor S) (x : VectorXd S) : VectorXd S :=
  if regressor.use_MAP_hyperparameters then
    VectorXd.block x (regressor.X.cols + 2) regressor.X.rows
  else VectorXd.Constant regressor.X.rows regressor.m_default_r

/-- The local `C` of `objective` (line 129). -/
def objective_C (R : Routines S) (regressor : PreferenceRegressor S) (x : VectorXd S) :
    MatrixXd S :=
  R.calc_C regressor.X (objective_a regressor x) (objective_b regressor x)
    (objective_r regressor x)

/-- The local `grad_y` of `objective` once the term of the Gaussian prior is added
(lines 160 to 181). -/
def objective_grad_y (R : Routines S) (D : List Preference) (w y : VectorXd S)
    (btl_scale : S) (C_inv : MatrixXd S) : VectorXd S :=
  VectorXd.add (objective_grad_y_data R D w y btl_scale)
    (MatrixXd.mulVec (MatrixXd.neg C_inv) y)

/-- The function `objective`, the callback handed to the solver.  `x` is the candidate,
`grad` the content of the gradient buffer on entry; the result is the returned value and
the content of the buffer on exit.  `regressor` is the object behind `data`. -/
def objective (m : CMath S) (R : Routines S) (regressor : PreferenceRegressor S)
    (x grad : VectorXd S) : S × VectorXd S :=
  let X := regressor.X
  let D := regressor.D
  let w := regressor.w
  let M := X.cols
  let y : VectorXd S := x.take M
  let a := objective_a regressor x
  let b := objective_b regressor x
  let r := objective_r regressor x
  -- Log likelihood of data
  let obj1 := objective_data_term m R D w y regressor.m_btl_scale
  -- Log likelihood of y distribution
  let C := objective_C R regressor x
  let C_inv := R.inverse C
  let obj2 := obj1 + objective_y_term m R C C_inv M y
  let obj3 :=
    if regressor.use_MAP_hyperparameters then
      let a_prior := regressor.m_default_a
      let b_prior := regressor.m_default_b
      let r_prior := regressor.m_default_r
      let variance := regressor.m_variance
      let obj_a := obj2 + m.log (log_normal m a (m.log a_prior) variance)
      let obj_b := obj_a + m.log (log_normal m b (m.log b_prior) variance)
      (List.range r.length).foldl
        (fun obj i => obj + m.log (log_normal m (VectorXd.coeff r i) (m.log r_prior) variance))
        obj_b
    else obj2
  -- When the algorithm is gradient-based, compute the gradient vector
  let grad_out :=
    if grad.length = x.length then
      let grad_y := objective_grad_y R D w y regressor.m_btl_scale C_inv
      let grad1 := VectorXd.setBlock grad 0 grad_y.length grad_y
      if regressor.use_MAP_hyperparameters then
        let grad2 := grad1.set (M + 0)
          (calc_grad_a m R y C_inv X a b r regressor.m_default_a regressor.m_variance)
        let grad3 := grad2.set (M + 1)
          (calc_grad_b m R y C_inv X a b r regressor.m_default_b regressor.m_variance)
        let grad_r := calc_grad_r m R y C_inv X a b r regressor.m_default_r regressor.m_variance
        (List.range grad_r.length).foldl
          (fun g i => g.set (M + 2 + i) (VectorXd.coeff grad_r i)) grad3
      else
        ((grad1.set (M + 0) 0).set (M + 1) 0).set (M + 2) 0
    else grad
  (obj3, grad_out)

/-! ## MAP estimation and construction -/

/-- The local `upper` of `compute_MAP` (line 255). -/
def PreferenceRegressor.MAP_upper (self : PreferenceRegressor S) : VectorXd S :=
  let M := self.X.cols
  let d := self.X.rows
  VectorXd.Constant (M + 2 + d) 1e+01

/-- The local `lower` of `compute_MAP` (lines 256 and 257). -/
def PreferenceRegressor.MAP_lower (self : PreferenceRegressor S) : VectorXd S :=
  let M := self.X.cols
  let d := self.X.rows
  let lower : VectorXd S := VectorXd.Constant (M + 2 + d) (-1e+01)
  VectorXd.setBlock lower M (2 + d) (VectorXd.Constant (2 + d) 1e-05)

/-- The local `x_ini` of `compute_MAP` (lines 258 to 273); `previous` is `none` for a
null pointer. -/
def PreferenceRegressor.MAP_x_ini (R : Routines S) (self : PreferenceRegressor S)
    (previous : Option (PreferenceRegressor S)) : VectorXd S :=
  let M := self.X.cols
  let d := self.X.rows
  let x_ini0 : VectorXd S := VectorXd.Constant (M + 2 + d) 0.0
  let x_ini1 := x_ini0.set (M + 0) self.m_default_a
  let x_ini2 := x_ini1.set (M + 1) self.m_default_b
  let x_ini3 := VectorXd.setBlock x_ini2 (M + 2) d (VectorXd.Constant d self.m_default_r)
  match previous with
  | none => x_ini3
  | some prev =>
    let x_ini4 := (List.range M).foldl
      (fun x_ini i => x_ini.set i (prev.estimate_y R (self.X.col i))) x_ini3
    let x_ini5 := x_ini4.set (M + 0) prev.a
    let x_ini6 := x_ini5.set (M + 1) prev.b
    VectorXd.setBlock x_ini6 (M + 2) d prev.r

/-- The outcome of `compute_MAP`: the object after the call, the object behind `previous`
after the call, and the arguments of the one call of the solver. -/
structure MAPResult (S : Type) where
  self : PreferenceRegressor S
  previous : Option (PreferenceRegressor S)
  call : SolveCall S

/-- The method `PreferenceRegressor::compute_MAP`. -/
def PreferenceRegressor.compute_MAP (m : CMath S) (R : Routines S)
    (self : PreferenceRegressor S) (previous : Option (PreferenceRegressor S)) :
    MAPResult S :=
  let M := self.X.cols
  let d := self.X.rows
  let upper := self.MAP_upper
  let lower := self.MAP_lower
  let x_ini := self.MAP_x_ini R previous
  let x_opt := R.solve x_ini upper lower (objective m R self) 500
  let self1 := { self with y := VectorXd.block x_opt 0 M }
  let self2 :=
    if self.use_MAP_hyperparameters then
      { self1 with
        a := VectorXd.coeff x_opt (M + 0)
        b := VectorXd.coeff x_opt (M + 1)
        r := VectorXd.block x_opt (M + 2) d }
    else
      { self1 with
        a := self.m_default_a
        b := self.m_default_b
        r := VectorXd.Constant d self.m_default_r }
  ⟨self2, previous, ⟨x_ini, upper, lower, 500⟩⟩

/-- The outcome of constructing a regressor: the object, and the arguments of every call
of the solver made during construction, in order. -/
structure Constructed (S : Type) where
  regressor : PreferenceRegressor S
  solver_calls : List (SolveCall S)

/-- The constructor `PreferenceRegressor::PreferenceRegressor`.  The member initialiser
list sets the data, the weights and the five defaults; `y`, `r`, `C` and `C_inv` start as
empty Eigen objects.  The list does not mention the members `a` and `b`: `a_uninit` and
`b_uninit` stand for whatever their storage holds when the body starts. -/
def PreferenceRegressor.ctor (m : CMath S) (R : Routines S) (X : MatrixXd S)
    (D : List Preference) (w : VectorXd S) (use_MAP_hyperparameters : Bool)
    (default_a default_r default_b variance btl_scale : S) (a_uninit b_uninit : S) :
    Constructed S :=
  let self0 : PreferenceRegressor S :=
    { use_MAP_hyperparameters := use_MAP_hyperparameters
      X := X
      D := D
      w := if w.length = 0 then VectorXd.Constant D.length 1 else w
      y := []
      a := a_uninit
      b := b_uninit
      r := []
      C := MatrixXd.empty
      C_inv := MatrixXd.empty
      m_default_a := default_a
      m_default_r := default_r
      m_default_b := default_b
      m_variance := variance
      m_btl_scale := btl_scale }
  if X.cols = 0 ∨ D.length = 0 then
    ⟨self0, []⟩
  else
    let res := self0.compute_MAP m R none
    let self1 := res.self
    let self2 := { self1 with C := R.calc_C self1.X self1.a self1.b self1.r }
    let self3 := { self2 with C_inv := R.inverse self2.C }
    ⟨self3, [res.call]⟩

/-! ## How a query ends -/

/-- The ways a posterior query may end according to the specification: with a number, or
with the error `NotFitted`. -/
inductive Outcome (S : Type) where
  | value (v : S) : Outcome S
  | NotFitted : Outcome S
deriving DecidableEq

/-- The outcome of a call of `estimate_y`.  The body (lines 240 and 241) computes `k` and
returns the product; it has no test of the fitted state and no `throw`. -/
def PreferenceRegressor.estimate_y_outcome (R : Routines S) (self : PreferenceRegressor S)
    (x : VectorXd S) : Outcome S :=
  Outcome.value (self.estimate_y R x)

/-! ## A concrete instance of the parameters -/

/-- An instance of `CMath` on any scalar field, for running the model on examples: the
first-order expansions of `log` at 1 and of `exp` at 0, the identity for `sqrt`, and 3
for `M_PI`. -/
def exampleMath : CMath S :=
  ⟨fun x => x - 1, fun x => 1 + x, fun x => x, 3⟩

/-- An instance of `Routines` on any scalar field, for running the model on examples.
Distinct points are uncorrelated: the kernel matrix is diagonal with `a + b` on the
diagonal and the cross-covariance with an equal point is `a`; its derivatives in `a` and
`b` are the identity matrix and those in `r` are zero.  `inverse` and `determinant` are
those of a diagonal matrix.  The likelihood of a preference is one over the number of its
points.  The solver returns its initial point. -/
def exampleRoutines : Routines S where
  calc_C := fun X a b _ =>
    ⟨X.cols, (List.range X.cols).map
      (fun j => (List.range X.cols).map (fun i => if i = j then a + b else 0))⟩
  calc_k := fun x X a _ _ => X.columns.map (fun c => if c = x then a else 0)
  calc_C_grad_a := fun X _ _ _ =>
    ⟨X.cols, (List.range X.cols).map
      (fun j => (List.range X.cols).map (fun i => if i = j then 1 else 0))⟩
  calc_C_grad_b := fun X _ _ _ =>
    ⟨X.cols, (List.range X.cols).map
      (fun j => (List.range X.cols).map (fun i => if i = j then 1 else 0))⟩
  calc_C_grad_r_i := fun X _ _ _ _ =>
    ⟨X.cols, (List.range X.cols).map (fun _ => (List.range X.cols).map (fun _ => 0))⟩
  BTL := fun f _ => 1 / (f.length : S)
  derivative_BTL := fun f _ => f.map (fun _ => 0)
  inverse := fun A => ⟨A.rows, A.columns.map (fun c => c.map (fun p => if p = 0 then 0 else 1 / p))⟩
  determinant := fun A => ((List.range A.rows).map (fun i => A.coeff i i)).prod
  solve := fun x_initial _ _ _ _ => x_initial

end Model

/-! ## Concrete inputs -/

/-- Three sample points 0, 1 and 2 of a one-dimensional design space. -/
def exampleX (S : Type) [LinearOrderedField S] : MatrixXd S := ⟨1, [[0], [1], [2]]⟩

/-- A regressor over `exampleX` with two preferences, before any fit: `y`, `r`, `C` and
`C_inv` are empty. -/
def exampleRegressor (S : Type) [LinearOrderedField S] (use_MAP_hyperparameters : Bool) :
    PreferenceRegressor S :=
  { use_MAP_hyperparameters := use_MAP_hyperparameters
    X := exampleX S
    D := [[0, 1], [2, 0]]
    w := [1, 1]
    y := []
    a := 0
    b := 0
    r := []
    C := MatrixXd.empty
    C_inv := MatrixXd.empty
    m_default_a := 1
    m_default_r := 1
    m_default_b := 1
    m_variance := 1
    m_btl_scale := 1 }

/-- A fitted regressor over the two sample points 0 and 1, with utilities 1 and -1. -/
def examplePrevious : PreferenceRegressor ℚ :=
  { use_MAP_hyperparameters := true
    X := ⟨1, [[0], [1]]⟩
    D := [[0, 1]]
    w := [1]
    y := [1, -1]
    a := 1
    b := 1
    r := [3]
    C := ⟨2, [[2, 0], [0, 2]]⟩
    C_inv := ⟨2, [[1 / 2, 0], [0, 1 / 2]]⟩
    m_default_a := 1
    m_default_r := 1
    m_default_b := 1
    m_variance := 1
    m_btl_scale := 1 }

/-- Two sample points (0, 0) and (1, 1) of a two-dimensional design space with one
preference, hyperparameters fixed at their defaults. -/
def exampleRegressor2d : PreferenceRegressor ℚ :=
  { use_MAP_hyperparameters := false
    X := ⟨2, [[0, 0], [1, 1]]⟩
    D := [[0, 1]]
    w := [1]
    y := []
    a := 0
    b := 0
    r := []
    C := MatrixXd.empty
    C_inv := MatrixXd.empty
    m_default_a := 1
    m_default_r := 1
    m_default_b := 1
    m_variance := 1
    m_btl_scale := 1 }

/-- Two sample points 0 and 1 of a one-dimensional design space with one preference of
weight 2, hyperparameters fixed at their defaults, BTL scale 1. -/
def exampleRegressorWeighted : PreferenceRegressor ℚ :=
  { use_MAP_hyperparameters := false
    X := ⟨1, [[0], [1]]⟩
    D := [[0, 1]]
    w := [2]
    y := []
    a := 0
    b := 0
    r := []
    C := MatrixXd.empty
    C_inv := MatrixXd.empty
    m_default_a := 1
    m_default_r := 1
    m_default_b := 1
    m_variance := 1
    m_btl_scale := 1 }

section Proofs

variable {S : Type} [LinearOrderedField S]

/-! ## Loops that write a vector entry by entry -/

theorem foldl_set_length (g : Nat → S → S) (off n : Nat) (v : List S) :
    ((List.range n).foldl
      (fun acc i => acc.set (off + i) (g i (acc[off + i]?.getD 0))) v).length
      = v.length := by
  induction n with
  | zero => simp
  | succ n ih =>
    rw [List.range_succ, List.foldl_append, List.foldl_cons, List.foldl_nil, List.length_set]
    exact ih

theorem foldl_set_getElem? (g : Nat → S → S) (off n : Nat) (v : List S) (p : Nat) :
    ((List.range n).foldl
      (fun acc i => acc.set (off + i) (g i (acc[off + i]?.getD 0))) v)[p]?
      = if off ≤ p ∧ p < off + n ∧ p < v.length then some (g (p - off) (v[p]?.getD 0))
        else v[p]? := by
  induction n generalizing p with
  | zero =>
    have h : ¬ (off ≤ p ∧ p < off + 0 ∧ p < v.length) := by omega
    rw [if_neg h]
    rfl
  | succ n ih =>
    rw [List.range_succ, List.foldl_append, List.foldl_cons, List.foldl_nil,
      List.getElem?_set, foldl_set_length]
    by_cases hp : off + n = p
    · subst hp
      rw [ih (off + n)]
      have h0 : ¬ (off ≤ off + n ∧ off + n < off + n ∧ off + n < v.length) := by omega
      by_cases hl : off + n < v.length
      · have h1 : off ≤ off + n ∧ off + n < off + (n + 1) ∧ off + n < v.length := by omega
        simp [h0, h1, hl]
      · have h1 : ¬ (off ≤ off + n ∧ off + n < off + (n + 1) ∧ off + n < v.length) := by
          omega
        have h2 : v[off + n]? = none := List.getElem?_eq_none (by omega)
        simp [h1, hl, h2]
    · rw [if_neg hp, ih p]
      by_cases h1 : off ≤ p ∧ p < off + n ∧ p < v.length
      · have h2 : off ≤ p ∧ p < off + (n + 1) ∧ p < v.length := by omega
        rw [if_pos h1, if_pos h2]
      · have h2 : ¬ (off ≤ p ∧ p < off + (n + 1) ∧ p < v.length) := by omega
        rw [if_neg h1, if_neg h2]

theorem setBlock_length (v : VectorXd S) (start n : Nat) (src : VectorXd S) :
    (VectorXd.setBlock v start n src).length = v.length :=
  foldl_set_length (fun i _ => VectorXd.coeff src i) start n v

theorem setBlock_getElem? (v : VectorXd S) (start n : Nat) (src : VectorXd S) (p : Nat) :
    (VectorXd.setBlock v start n src)[p]?
      = if start ≤ p ∧ p < start + n ∧ p < v.length then some (VectorXd.coeff src (p - start))
        else v[p]? :=
  foldl_set_getElem? (fun i _ => VectorXd.coeff src i) start n v p

/-- A loop `for (i = 0; i < n; ++i) v(i) = f(i)`, read entry by entry. -/
theorem foldl_set_zero_getElem? (f : Nat → S) (n : Nat) (v : List S) (p : Nat) :
    ((List.range n).foldl (fun acc i => acc.set i (f i)) v)[p]?
      = if p < n ∧ p < v.length then some (f p) else v[p]? := by
  have h := foldl_set_getElem? (fun i _ => f i) 0 n v p
  simp only [Nat.zero_add, Nat.zero_le, true_and, Nat.sub_zero] at h
  exact h

theorem foldl_set_zero_length (f : Nat → S) (n : Nat) (v : List S) :
    ((List.range n).foldl (fun acc i => acc.set i (f i)) v).length = v.length := by
  have h := foldl_set_length (fun i _ => f i) 0 n v
  simp only [Nat.zero_add] at h
  exact h

theorem MAP_upper_eq (self : PreferenceRegressor S) :
    self.MAP_upper = List.replicate (self.X.cols + 2 + self.X.rows) 10 := by
  unfold PreferenceRegressor.MAP_upper VectorXd.Constant
  norm_num

theorem MAP_lower_eq (self : PreferenceRegressor S) :
    self.MAP_lower
      = List.replicate self.X.cols (-10) ++ List.replicate (2 + self.X.rows) (1 / 100000) := by
  apply List.ext_getElem?
  intro p
  unfold PreferenceRegressor.MAP_lower
  simp only [setBlock_getElem?, VectorXd.Constant, List.length_replicate]
  by_cases h1 : p < self.X.cols
  · have h2 : ¬ (self.X.cols ≤ p ∧ p < self.X.cols + (2 + self.X.rows)
        ∧ p < self.X.cols + 2 + self.X.rows) := by omega
    rw [if_neg h2, List.getElem?_append_left (by simpa using h1)]
    have h3 : p < self.X.cols + 2 + self.X.rows := by omega
    simp only [List.getElem?_replicate, h1, h3, if_true]
    norm_num
  · by_cases h4 : p < self.X.cols + 2 + self.X.rows
    · have h2 : self.X.cols ≤ p ∧ p < self.X.cols + (2 + self.X.rows)
        ∧ p < self.X.cols + 2 + self.X.rows := by omega
      have h5 : p - self.X.cols < 2 + self.X.rows := by omega
      rw [if_pos h2, List.getElem?_append_right (by simpa using h1)]
      simp only [VectorXd.coeff, List.getD_eq_getElem?_getD, List.getElem?_replicate,
        List.length_replicate, h5, if_true, Option.getD_some]
      norm_num
    · have h2 : ¬ (self.X.cols ≤ p ∧ p < self.X.cols + (2 + self.X.rows)
        ∧ p < self.X.cols + 2 + self.X.rows) := by omega
      have h5 : ¬ (p - self.X.cols < 2 + self.X.rows) := by omega
      rw [if_neg h2, List.getElem?_append_right (by simpa using h1)]
      simp only [List.getElem?_replicate, List.length_replicate, h4, h5, if_false]

theorem MAP_x_ini_none (R : Routines S) (self : PreferenceRegressor S) :
    self.MAP_x_ini R none
      = List.replicate self.X.cols 0
        ++ self.m_default_a :: self.m_default_b :: List.replicate self.X.rows self.m_default_r := by
  apply List.ext_getElem?
  intro p
  unfold PreferenceRegressor.MAP_x_ini
  simp only [setBlock_getElem?, VectorXd.Constant, List.length_replicate, List.length_set,
    List.getElem?_set]
  rcases Nat.lt_or_ge p self.X.cols with h | h
  · rw [List.getElem?_append_left (by simpa using h)]
    have h2 : ¬ (self.X.cols + 2 ≤ p ∧ p < self.X.cols + 2 + self.X.rows
        ∧ p < self.X.cols + 2 + self.X.rows) := by omega
    have h3 : ¬ (self.X.cols + 1 = p) := by omega
    have h4 : ¬ (self.X.cols + 0 = p) := by omega
    have h5 : p < self.X.cols + 2 + self.X.rows := by omega
    rw [if_neg h2, if_neg h3, if_neg h4]
    simp only [List.getElem?_replicate, h, h5, if_true]
    norm_num
  · rw [List.getElem?_append_right (by simpa using h)]
    obtain ⟨k, rfl⟩ : ∃ k, p = self.X.cols + k := ⟨p - self.X.cols, by omega⟩
    simp only [List.length_replicate, Nat.add_sub_cancel_left]
    rcases k with _ | _ | k
    · have h2 : ¬ (self.X.cols + 2 ≤ self.X.cols + 0 ∧ self.X.cols + 0 < self.X.cols + 2 + self.X.rows
        ∧ self.X.cols + 0 < self.X.cols + 2 + self.X.rows) := by omega
      have h3 : ¬ (self.X.cols + 1 = self.X.cols + 0) := by omega
      have h5 : self.X.cols + 0 < self.X.cols + 2 + self.X.rows := by omega
      rw [if_neg h2, if_neg h3, if_pos rfl, if_pos h5]
      rfl
    · have h2 : ¬ (self.X.cols + 2 ≤ self.X.cols + (0 + 1)
        ∧ self.X.cols + (0 + 1) < self.X.cols + 2 + self.X.rows
        ∧ self.X.cols + (0 + 1) < self.X.cols + 2 + self.X.rows) := by omega
      have h5 : self.X.cols + 1 < self.X.cols + 2 + self.X.rows := by omega
      rw [if_neg h2, if_pos rfl, if_pos h5]
      simp
    · rw [List.getElem?_cons_succ, List.getElem?_cons_succ]
      by_cases hk : k < self.X.rows
      · have h2 : self.X.cols + 2 ≤ self.X.cols + (k + 1 + 1)
          ∧ self.X.cols + (k + 1 + 1) < self.X.cols + 2 + self.X.rows
          ∧ self.X.cols + (k + 1 + 1) < self.X.cols + 2 + self.X.rows := by omega
        have h6 : self.X.cols + (k + 1 + 1) - (self.X.cols + 2) = k := by omega
        rw [if_pos h2, h6]
        simp [VectorXd.coeff, List.getElem?_replicate, hk]
      · have h2 : ¬ (self.X.cols + 2 ≤ self.X.cols + (k + 1 + 1)
          ∧ self.X.cols + (k + 1 + 1) < self.X.cols + 2 + self.X.rows
          ∧ self.X.cols + (k + 1 + 1) < self.X.cols + 2 + self.X.rows) := by omega
        have h3 : ¬ (self.X.cols + 1 = self.X.cols + (k + 1 + 1)) := by omega
        have h4 : ¬ (self.X.cols + 0 = self.X.cols + (k + 1 + 1)) := by omega
        have h5 : ¬ (self.X.cols + (k + 1 + 1) < self.X.cols + 2 + self.X.rows) := by omega
        rw [if_neg h2, if_neg h3, if_neg h4]
        simp only [List.getElem?_replicate, hk, h5, if_false]

theorem MAP_x_ini_none_length (R : Routines S) (self : PreferenceRegressor S) :
    (self.MAP_x_ini R none).length = self.X.cols + 2 + self.X.rows := by
  rw [MAP_x_ini_none]
  simp only [List.length_append, List.length_replicate, List.length_cons]
  omega

theorem MAP_x_ini_some (R : Routines S) (self prev : PreferenceRegressor S)
    (hr : prev.r.length = self.X.rows) :
    self.MAP_x_ini R (some prev)
      = (List.range self.X.cols).map (fun i => prev.estimate_y R (self.X.col i))
        ++ prev.a :: prev.b :: prev.r := by
  have hunfold : self.MAP_x_ini R (some prev)
      = VectorXd.setBlock
          ((((List.range self.X.cols).foldl
            (fun x_ini i => x_ini.set i (prev.estimate_y R (self.X.col i)))
            (self.MAP_x_ini R none)).set (self.X.cols + 0) prev.a).set (self.X.cols + 1) prev.b)
          (self.X.cols + 2) self.X.rows prev.r := rfl
  rw [hunfold]
  apply List.ext_getElem?
  intro p
  simp only [setBlock_getElem?, List.length_set, List.getElem?_set, foldl_set_zero_length,
    foldl_set_zero_getElem?, MAP_x_ini_none_length]
  rcases Nat.lt_or_ge p self.X.cols with h | h
  · rw [List.getElem?_append_left (by simpa using h)]
    have h2 : ¬ (self.X.cols + 2 ≤ p ∧ p < self.X.cols + 2 + self.X.rows
        ∧ p < self.X.cols + 2 + self.X.rows) := by omega
    have h3 : ¬ (self.X.cols + 1 = p) := by omega
    have h4 : ¬ (self.X.cols + 0 = p) := by omega
    have h5 : p < self.X.cols ∧ p < self.X.cols + 2 + self.X.rows := by omega
    rw [if_neg h2, if_neg h3, if_neg h4, if_pos h5, List.getElem?_map,
      List.getElem?_range h]
    rfl
  · rw [List.getElem?_append_right (by simpa using h)]
    obtain ⟨k, rfl⟩ : ∃ k, p = self.X.cols + k := ⟨p - self.X.cols, by omega⟩
    simp only [List.length_map, List.length_range, Nat.add_sub_cancel_left]
    rcases k with _ | _ | k
    · have h2 : ¬ (self.X.cols + 2 ≤ self.X.cols + 0 ∧ self.X.cols + 0 < self.X.cols + 2 + self.X.rows
        ∧ self.X.cols + 0 < self.X.cols + 2 + self.X.rows) := by omega
      have h3 : ¬ (self.X.cols + 1 = self.X.cols + 0) := by omega
      have h5 : self.X.cols + 0 < self.X.cols + 2 + self.X.rows := by omega
      rw [if_neg h2, if_neg h3, if_pos rfl, if_pos h5]
      rfl
    · have h2 : ¬ (self.X.cols + 2 ≤ self.X.cols + (0 + 1)
        ∧ self.X.cols + (0 + 1) < self.X.cols + 2 + self.X.rows
        ∧ self.X.cols + (0 + 1) < self.X.cols + 2 + self.X.rows) := by omega
      have h5 : self.X.cols + 1 < self.X.cols + 2 + self.X.rows := by omega
      rw [if_neg h2, if_pos rfl, if_pos h5]
      simp
    · rw [List.getElem?_cons_succ, List.getElem?_cons_succ]
      by_cases hk : k < self.X.rows
      · have h2 : self.X.cols + 2 ≤ self.X.cols + (k + 1 + 1)
          ∧ self.X.cols + (k + 1 + 1) < self.X.cols + 2 + self.X.rows
          ∧ self.X.cols + (k + 1 + 1) < self.X.cols + 2 + self.X.rows := by omega
        have h6 : self.X.cols + (k + 1 + 1) - (self.X.cols + 2) = k := by omega
        have h7 : k < prev.r.length := by omega
        rw [if_pos h2, h6]
        simp [VectorXd.coeff, List.getElem?_eq_getElem h7]
      · have h2 : ¬ (self.X.cols + 2 ≤ self.X.cols + (k + 1 + 1)
          ∧ self.X.cols + (k + 1 + 1) < self.X.cols + 2 + self.X.rows
          ∧ self.X.cols + (k + 1 + 1) < self.X.cols + 2 + self.X.rows) := by omega
        have h3 : ¬ (self.X.cols + 1 = self.X.cols + (k + 1 + 1)) := by omega
        have h4 : ¬ (self.X.cols + 0 = self.X.cols + (k + 1 + 1)) := by omega
        have h5 : ¬ (self.X.cols + (k + 1 + 1) < self.X.cols
          ∧ self.X.cols + (k + 1 + 1) < self.X.cols + 2 + self.X.rows) := by omega
        have h8 : (self.MAP_x_ini R none)[self.X.cols + (k + 1 + 1)]? = none :=
          List.getElem?_eq_none (by rw [MAP_x_ini_none_length]; omega)
        have h9 : prev.r[k]? = none := List.getElem?_eq_none (by omega)
        rw [if_neg h2, if_neg h3, if_neg h4, if_neg h5, h8, h9]

theorem MAP_x_ini_length (R : Routines S) (self : PreferenceRegressor S)
    (previous : Option (PreferenceRegressor S)) :
    (self.MAP_x_ini R previous).length = self.X.cols + 2 + self.X.rows := by
  cases previous with
  | none => exact MAP_x_ini_none_length R self
  | some prev =>
    have hunfold : self.MAP_x_ini R (some prev)
        = VectorXd.setBlock
            ((((List.range self.X.cols).foldl
              (fun x_ini i => x_ini.set i (prev.estimate_y R (self.X.col i)))
              (self.MAP_x_ini R none)).set (self.X.cols + 0) prev.a).set (self.X.cols + 1)
                prev.b)
            (self.X.cols + 2) self.X.rows prev.r := rfl
    rw [hunfold, setBlock_length, List.length_set, List.length_set, foldl_set_zero_length,
      MAP_x_ini_none_length]

theorem compute_MAP_call (m : CMath S) (R : Routines S) (self : PreferenceRegressor S)
    (previous : Option (PreferenceRegressor S)) :
    (self.compute_MAP m R previous).call
      = ⟨self.MAP_x_ini R previous, self.MAP_upper, self.MAP_lower, 500⟩ := rfl

theorem compute_MAP_y (m : CMath S) (R : Routines S) (self : PreferenceRegressor S)
    (previous : Option (PreferenceRegressor S)) :
    (self.compute_MAP m R previous).self.y
      = VectorXd.block
          (R.solve (self.MAP_x_ini R previous) self.MAP_upper self.MAP_lower
            (objective m R self) 500) 0 self.X.cols := by
  unfold PreferenceRegressor.compute_MAP
  by_cases h : self.use_MAP_hyperparameters = true <;> simp [h]

theorem compute_MAP_a (m : CMath S) (R : Routines S) (self : PreferenceRegressor S)
    (previous : Option (PreferenceRegressor S)) :
    (self.compute_MAP m R previous).self.a
      = (if self.use_MAP_hyperparameters then
          VectorXd.coeff
            (R.solve (self.MAP_x_ini R previous) self.MAP_upper self.MAP_lower
              (objective m R self) 500) (self.X.cols + 0)
        else self.m_default_a) := by
  unfold PreferenceRegressor.compute_MAP
  by_cases h : self.use_MAP_hyperparameters = true <;> simp [h]

theorem compute_MAP_b (m : CMath S) (R : Routines S) (self : PreferenceRegressor S)
    (previous : Option (PreferenceRegressor S)) :
    (self.compute_MAP m R previous).self.b
      = (if self.use_MAP_hyperparameters then
          VectorXd.coeff
            (R.solve (self.MAP_x_ini R previous) self.MAP_upper self.MAP_lower
              (objective m R self) 500) (self.X.cols + 1)
        else self.m_default_b) := by
  unfold PreferenceRegressor.compute_MAP
  by_cases h : self.use_MAP_hyperparameters = true <;> simp [h]

theorem compute_MAP_r (m : CMath S) (R : Routines S) (self : PreferenceRegressor S)
    (previous : Option (PreferenceRegressor S)) :
    (self.compute_MAP m R previous).self.r
      = (if self.use_MAP_hyperparameters then
          VectorXd.block
            (R.solve (self.MAP_x_ini R previous) self.MAP_upper self.MAP_lower
              (objective m R self) 500) (self.X.cols + 2) self.X.rows
        else List.replicate self.X.rows self.m_default_r) := by
  unfold PreferenceRegressor.compute_MAP
  by_cases h : self.use_MAP_hyperparameters = true <;> simp [h, VectorXd.Constant]

/-! ## Construction on degenerate data -/

/-- On every degenerate input, a matrix without columns or an empty preference list, the
constructor makes no call of the solver, leaves `y`, `r`, `C` and `C_inv` empty, and
leaves in `a` and `b` what their storage held. -/
theorem ctor_degenerate (m : CMath S) (R : Routines S) (X : MatrixXd S)
    (D : List Preference) (w : VectorXd S) (use_MAP_hyperparameters : Bool)
    (default_a default_r default_b variance btl_scale a_uninit b_uninit : S)
    (h : X.cols = 0 ∨ D.length = 0) :
    (PreferenceRegressor.ctor m R X D w use_MAP_hyperparameters default_a default_r
        default_b variance btl_scale a_uninit b_uninit).solver_calls = []
      ∧ (PreferenceRegressor.ctor m R X D w use_MAP_hyperparameters default_a default_r
        default_b variance btl_scale a_uninit b_uninit).regressor.y = []
      ∧ (PreferenceRegressor.ctor m R X D w use_MAP_hyperparameters default_a default_r
        default_b variance btl_scale a_uninit b_uninit).regressor.r = []
      ∧ (PreferenceRegressor.ctor m R X D w use_MAP_hyperparameters default_a default_r
        default_b variance btl_scale a_uninit b_uninit).regressor.C = MatrixXd.empty
      ∧ (PreferenceRegressor.ctor m R X D w use_MAP_hyperparameters default_a default_r
        default_b variance btl_scale a_uninit b_uninit).regressor.C_inv = MatrixXd.empty
      ∧ (PreferenceRegressor.ctor m R X D w use_MAP_hyperparameters default_a default_r
        default_b variance btl_scale a_uninit b_uninit).regressor.a = a_uninit
      ∧ (PreferenceRegressor.ctor m R X D w use_MAP_hyperparameters default_a default_r
        default_b variance btl_scale a_uninit b_uninit).regressor.b = b_uninit := by
  unfold PreferenceRegressor.ctor
  rw [if_pos h]
  exact ⟨rfl, rfl, rfl, rfl, rfl, rfl, rfl⟩

/-- On every other input the constructor calls the solver exactly once, through
`compute_MAP` without a previous regressor. -/
theorem ctor_regular (m : CMath S) (R : Routines S) (X : MatrixXd S)
    (D : List Preference) (w : VectorXd S) (use_MAP_hyperparameters : Bool)
    (default_a default_r default_b variance btl_scale a_uninit b_uninit : S)
    (h : ¬ (X.cols = 0 ∨ D.length = 0)) :
    (PreferenceRegressor.ctor m R X D w use_MAP_hyperparameters default_a default_r
        default_b variance btl_scale a_uninit b_uninit).solver_calls.length = 1 := by
  unfold PreferenceRegressor.ctor
  rw [if_neg h]
  rfl

/-- C1 (evaluation at the failing inputs): a regressor constructed from a matrix without
columns, or from an empty preference list, makes no call of the solver and has empty `y`,
`r`, `C` and `C_inv`, but its members `a` and `b` are never assigned: they hold whatever
their storage held before the constructor ran. -/
theorem ctor_degenerate_leaves_a_and_b_unassigned (m : CMath ℚ) (R : Routines ℚ)
    (a_uninit b_uninit : ℚ) :
    ((PreferenceRegressor.ctor m R ⟨2, []⟩ [] [] true 1 1 1 1 1 a_uninit b_uninit).solver_calls
        = []
      ∧ (PreferenceRegressor.ctor m R ⟨2, []⟩ [] [] true 1 1 1 1 1 a_uninit b_uninit).regressor.y
        = []
      ∧ (PreferenceRegressor.ctor m R ⟨2, []⟩ [] [] true 1 1 1 1 1 a_uninit b_uninit).regressor.r
        = []
      ∧ (PreferenceRegressor.ctor m R ⟨2, []⟩ [] [] true 1 1 1 1 1 a_uninit b_uninit).regressor.C
        = MatrixXd.empty
      ∧ (PreferenceRegressor.ctor m R ⟨2, []⟩ [] [] true 1 1 1 1 1 a_uninit b_uninit).regressor.C_inv
        = MatrixXd.empty
      ∧ (PreferenceRegressor.ctor m R ⟨2, []⟩ [] [] true 1 1 1 1 1 a_uninit b_uninit).regressor.a
        = a_uninit
      ∧ (PreferenceRegressor.ctor m R ⟨2, []⟩ [] [] true 1 1 1 1 1 a_uninit b_uninit).regressor.b
        = b_uninit)
    ∧ ((PreferenceRegressor.ctor m R (exampleX ℚ) [] [] true 1 1 1 1 1 a_uninit b_uninit).solver_calls
        = []
      ∧ (PreferenceRegressor.ctor m R (exampleX ℚ) [] [] true 1 1 1 1 1 a_uninit b_uninit).regressor.a
        = a_uninit
      ∧ (PreferenceRegressor.ctor m R (exampleX ℚ) [] [] true 1 1 1 1 1 a_uninit b_uninit).regressor.b
        = b_uninit) := by
  refine ⟨⟨rfl, rfl, rfl, rfl, rfl, rfl, rfl⟩, rfl, rfl, rfl⟩

/-! ## The arguments of the solver -/

/-- C5: whatever the data and the previous regressor, the upper bounds that `compute_MAP`
hands to the solver are 10 for all `M + 2 + d` entries, the lower bounds are -10 for the
`M` utilities and 1e-5, a positive number, for the `2 + d` hyperparameters, and the call
passes the upper bounds as second and the lower bounds as third argument, the order of
`nloptutil::solve`. -/
theorem compute_MAP_bounds (m : CMath S) (R : Routines S) (self : PreferenceRegressor S)
    (previous : Option (PreferenceRegressor S)) :
    (self.compute_MAP m R previous).call.upper
        = List.replicate (self.X.cols + 2 + self.X.rows) 10
      ∧ (self.compute_MAP m R previous).call.lower
        = List.replicate self.X.cols (-10) ++ List.replicate (2 + self.X.rows) (1 / 100000)
      ∧ (0 : S) < 1 / 100000
      ∧ (1 / 100000 : S) ≤ 10
      ∧ (self.compute_MAP m R previous).self.y
        = VectorXd.block
            (R.solve (self.compute_MAP m R previous).call.x_initial
              (List.replicate (self.X.cols + 2 + self.X.rows) 10)
              (List.replicate self.X.cols (-10)
                ++ List.replicate (2 + self.X.rows) (1 / 100000))
              (objective m R self) 500)
            0 self.X.cols := by
  refine ⟨MAP_upper_eq self, MAP_lower_eq self, by norm_num, by norm_num, ?_⟩
  rw [← MAP_upper_eq self, ← MAP_lower_eq self, compute_MAP_y, compute_MAP_call]

/-- C6: without a previous regressor the initial point is 0 for each of the `M` utilities,
then `default_a`, `default_b` and `d` copies of `default_r`; with a previous regressor of
the same dimension it is the previous posterior mean at each sample point, then the
previous `a`, `b` and `r`; and the previous regressor comes back as it went in. -/
theorem compute_MAP_initial_point (m : CMath S) (R : Routines S)
    (self prev : PreferenceRegressor S) (hr : prev.r.length = self.X.rows) :
    (self.compute_MAP m R none).call.x_initial
        = List.replicate self.X.cols 0
          ++ self.m_default_a :: self.m_default_b
            :: List.replicate self.X.rows self.m_default_r
      ∧ (self.compute_MAP m R (some prev)).call.x_initial
        = (List.range self.X.cols).map (fun i => prev.estimate_y R (self.X.col i))
          ++ prev.a :: prev.b :: prev.r
      ∧ (self.compute_MAP m R (some prev)).previous = some prev :=
  ⟨MAP_x_ini_none R self, MAP_x_ini_some R self prev hr, rfl⟩

/-- C6, on a concrete input: three sample points warm-started from a regressor fitted on
the first two. -/
theorem compute_MAP_initial_point_witness :
    examplePrevious.r.length = (exampleRegressor ℚ true).X.rows
      ∧ ((exampleRegressor ℚ true).compute_MAP exampleMath exampleRoutines none).call.x_initial
        = [0, 0, 0, 1, 1, 1]
      ∧ ((exampleRegressor ℚ true).compute_MAP exampleMath exampleRoutines
          (some examplePrevious)).call.x_initial
        = [1 / 2, -1 / 2, 0, 1, 1, 3] := by
  have h := compute_MAP_initial_point exampleMath exampleRoutines (exampleRegressor ℚ true)
    examplePrevious (by decide)
  refine ⟨by decide, ?_, ?_⟩
  · rw [h.1]
    decide
  · rw [h.2.1]
    simp [PreferenceRegressor.estimate_y, exampleRoutines, examplePrevious, exampleRegressor,
      exampleX, MatrixXd.col, MatrixXd.cols, MatrixXd.rowTimes, VectorXd.dot, List.range_succ]
    norm_num

/-- C7 (counterexample): with `use_MAP_hyperparameters` false and three sample points of
dimension 1, the initial point and both bound vectors have 6 entries, not 3. -/
theorem compute_MAP_vector_length_counterexample :
    (exampleRegressor ℚ false).use_MAP_hyperparameters = false
      ∧ (exampleRegressor ℚ false).X.cols = 3
      ∧ ((exampleRegressor ℚ false).compute_MAP exampleMath exampleRoutines none).call.x_initial.length
        = 6
      ∧ ((exampleRegressor ℚ false).compute_MAP exampleMath exampleRoutines none).call.upper.length
        = 6
      ∧ ((exampleRegressor ℚ false).compute_MAP exampleMath exampleRoutines none).call.lower.length
        = 6 := by
  refine ⟨rfl, rfl, ?_, ?_, ?_⟩
  · exact MAP_x_ini_length exampleRoutines (exampleRegressor ℚ false) none
  · show (exampleRegressor ℚ false).MAP_upper.length = 6
    rw [MAP_upper_eq]
    rfl
  · show (exampleRegressor ℚ false).MAP_lower.length = 6
    rw [MAP_lower_eq]
    rfl

/-- C7 (amended): the optimisation vector and both bound vectors always have `M + 2 + d`
entries, whether `use_MAP_hyperparameters` is set or not; the flag only decides whether
the fitted `a`, `b` and `r` are read back from the solution or taken from the defaults,
and `y` is always the first `M` entries of the solution. -/
theorem compute_MAP_vector_length (m : CMath S) (R : Routines S)
    (self : PreferenceRegressor S) (previous : Option (PreferenceRegressor S)) :
    (self.compute_MAP m R previous).call.x_initial.length = self.X.cols + 2 + self.X.rows
      ∧ (self.compute_MAP m R previous).call.upper.length = self.X.cols + 2 + self.X.rows
      ∧ (self.compute_MAP m R previous).call.lower.length = self.X.cols + 2 + self.X.rows
      ∧ (self.compute_MAP m R previous).self.y
        = VectorXd.block
            (R.solve (self.compute_MAP m R previous).call.x_initial
              (self.compute_MAP m R previous).call.upper
              (self.compute_MAP m R previous).call.lower (objective m R self) 500)
            0 self.X.cols
      ∧ (self.compute_MAP m R previous).self.a
        = (if self.use_MAP_hyperparameters then
            VectorXd.coeff
              (R.solve (self.compute_MAP m R previous).call.x_initial
                (self.compute_MAP m R previous).call.upper
                (self.compute_MAP m R previous).call.lower (objective m R self) 500)
              (self.X.cols + 0)
          else self.m_default_a)
      ∧ (self.compute_MAP m R previous).self.b
        = (if self.use_MAP_hyperparameters then
            VectorXd.coeff
              (R.solve (self.compute_MAP m R previous).call.x_initial
                (self.compute_MAP m R previous).call.upper
                (self.compute_MAP m R previous).call.lower (objective m R self) 500)
              (self.X.cols + 1)
          else self.m_default_b)
      ∧ (self.compute_MAP m R previous).self.r
        = (if self.use_MAP_hyperparameters then
            VectorXd.block
              (R.solve (self.compute_MAP m R previous).call.x_initial
                (self.compute_MAP m R previous).call.upper
                (self.compute_MAP m R previous).call.lower (objective m R self) 500)
              (self.X.cols + 2) self.X.rows
          else List.replicate self.X.rows self.m_default_r) := by
  refine ⟨MAP_x_ini_length R self previous, ?_, ?_, ?_, ?_, ?_, ?_⟩
  · show self.MAP_upper.length = _
    rw [MAP_upper_eq, List.length_replicate]
  · show self.MAP_lower.length = _
    rw [MAP_lower_eq, List.length_append, List.length_replicate, List.length_replicate]
    omega
  · rw [compute_MAP_y, compute_MAP_call]
  · rw [compute_MAP_a, compute_MAP_call]
  · rw [compute_MAP_b, compute_MAP_call]
  · rw [compute_MAP_r, compute_MAP_call]

/-! ## The best sampled point -/

/-- The invariant of the `maxCoeff` visitor.  If `best` is the first maximum of the entries
`pre` seen so far, then after visiting `rest` the state is the first maximum of
`pre ++ rest`. -/
theorem maxVisit_spec (rest : List S) :
    ∀ (pre : List S) (bv : S) (bi : Nat), bi < pre.length → pre.getD bi 0 = bv →
      (∀ j, j < pre.length → pre.getD j 0 ≤ bv) → (∀ j, j < bi → pre.getD j 0 < bv) →
      (VectorXd.maxVisit rest pre.length (bv, bi)).2 < (pre ++ rest).length
        ∧ (pre ++ rest).getD (VectorXd.maxVisit rest pre.length (bv, bi)).2 0
            = (VectorXd.maxVisit rest pre.length (bv, bi)).1
        ∧ (∀ j, j < (pre ++ rest).length →
            (pre ++ rest).getD j 0 ≤ (VectorXd.maxVisit rest pre.length (bv, bi)).1)
        ∧ (∀ j, j < (VectorXd.maxVisit rest pre.length (bv, bi)).2 →
            (pre ++ rest).getD j 0 < (VectorXd.maxVisit rest pre.length (bv, bi)).1) := by
  induction rest with
  | nil =>
    intro pre bv bi hbi hval hmax hfirst
    simp only [VectorXd.maxVisit, List.append_nil]
    exact ⟨hbi, hval, hmax, hfirst⟩
  | cons value rest ih =>
    intro pre bv bi hbi hval hmax hfirst
    have hlen : (pre ++ [value]).length = pre.length + 1 := by simp
    have happ : pre ++ value :: rest = (pre ++ [value]) ++ rest := by simp
    have hold : ∀ j, j < pre.length → (pre ++ [value]).getD j 0 = pre.getD j 0 :=
      fun j hj => List.getD_append pre [value] 0 j hj
    have hnew : (pre ++ [value]).getD pre.length 0 = value := by
      rw [List.getD_append_right pre [value] 0 pre.length (le_refl _)]
      simp
    rw [happ]
    unfold VectorXd.maxVisit
    rw [← hlen]
    by_cases hgt : value > bv
    · simp only [hgt, if_true]
      apply ih (pre ++ [value]) value pre.length
      · rw [hlen]; exact Nat.lt_succ_self _
      · exact hnew
      · intro j hj
        rw [hlen] at hj
        rcases Nat.lt_succ_iff_lt_or_eq.mp hj with h | h
        · rw [hold j h]
          exact le_of_lt (lt_of_le_of_lt (hmax j h) hgt)
        · rw [h, hnew]
      · intro j hj
        rw [hold j hj]
        exact lt_of_le_of_lt (hmax j hj) hgt
    · simp only [hgt, if_false]
      apply ih (pre ++ [value]) bv bi
      · rw [hlen]; exact Nat.lt_succ_of_lt hbi
      · rw [hold bi hbi]; exact hval
      · intro j hj
        rw [hlen] at hj
        rcases Nat.lt_succ_iff_lt_or_eq.mp hj with h | h
        · rw [hold j h]
          exact hmax j h
        · rw [h, hnew]
          exact not_lt.mp hgt
      · intro j hj
        rw [hold j (lt_trans hj hbi)]
        exact hfirst j hj

/-- C4: on a fitted state with at least one sample point, `find_arg_max` returns the column
of `X` whose index is the smallest one at which `y` attains its maximum. -/
theorem find_arg_max_is_first_maximum (self : PreferenceRegressor S)
    (hne : 0 < self.y.length) :
    self.find_arg_max = self.X.col (VectorXd.maxCoeffIndex self.y)
      ∧ VectorXd.maxCoeffIndex self.y < self.y.length
      ∧ (∀ j, j < self.y.length →
          VectorXd.coeff self.y j ≤ VectorXd.coeff self.y (VectorXd.maxCoeffIndex self.y))
      ∧ (∀ i, i < self.y.length →
          (∀ j, j < self.y.length → VectorXd.coeff self.y j ≤ VectorXd.coeff self.y i) →
          VectorXd.maxCoeffIndex self.y ≤ i) := by
  refine ⟨rfl, ?_⟩
  cases hy : self.y with
  | nil => rw [hy] at hne; exact absurd hne (lt_irrefl 0)
  | cons v0 rest =>
    have h := maxVisit_spec rest [v0] v0 0 (by simp) (by simp)
      (by
        intro j hj
        have hj0 : j = 0 := by simpa using hj
        rw [hj0]
        simp)
      (by intro j hj; exact absurd hj (Nat.not_lt_zero j))
    simp only [List.length_singleton, List.singleton_append] at h
    obtain ⟨h1, h2, h3, h4⟩ := h
    have hidx : VectorXd.maxCoeffIndex (v0 :: rest) = (VectorXd.maxVisit rest 1 (v0, 0)).2 := rfl
    rw [hidx]
    unfold VectorXd.coeff
    refine ⟨h1, ?_, ?_⟩
    · intro j hj
      rw [h2]
      exact h3 j hj
    · intro i hi hall
      by_contra hlt
      have hlt2 : i < (VectorXd.maxVisit rest 1 (v0, 0)).2 := not_le.mp hlt
      have hs := h4 i hlt2
      have hle := hall (VectorXd.maxVisit rest 1 (v0, 0)).2 h1
      rw [h2] at hle
      exact absurd hs (not_lt.mpr hle)

/-- C4, on a concrete input: utilities 1, 3, 3 over the points 0, 1, 2; the maximum 3 is
first reached at index 1, and the point returned is column 1. -/
theorem find_arg_max_is_first_maximum_witness :
    0 < ([1, 3, 3] : List ℚ).length
      ∧ PreferenceRegressor.find_arg_max
          { exampleRegressor ℚ true with y := [1, 3, 3] } = [1]
      ∧ VectorXd.maxCoeffIndex ([1, 3, 3] : List ℚ) = 1 := by
  have h := find_arg_max_is_first_maximum
    { exampleRegressor ℚ true with y := ([1, 3, 3] : List ℚ) } (by decide)
  refine ⟨by decide, ?_, ?_⟩
  · rw [h.1]
    decide
  · decide

/-! ## The posterior mean and standard deviation -/

/-- The inner product as a sum over the indices of the left operand. -/
theorem dot_eq_sum (u v : VectorXd S) :
    VectorXd.dot u v
      = ∑ i ∈ Finset.range u.length, VectorXd.coeff u i * VectorXd.coeff v i := by
  induction u generalizing v with
  | nil => simp [VectorXd.dot]
  | cons p u ih =>
    cases v with
    | nil => simp [VectorXd.dot, VectorXd.coeff]
    | cons q v =>
      have h := ih v
      unfold VectorXd.dot at h ⊢
      unfold VectorXd.coeff at h ⊢
      rw [List.zipWith_cons_cons, List.sum_cons, h, List.length_cons, Finset.sum_range_succ']
      simp only [List.getD_cons_succ, List.getD_cons_zero]
      rw [add_comm]

theorem rowTimes_coeff (u : VectorXd S) (A : MatrixXd S) (j : Nat) (hj : j < A.cols) :
    VectorXd.coeff (MatrixXd.rowTimes u A) j
      = ∑ i ∈ Finset.range u.length, VectorXd.coeff u i * A.coeff i j := by
  have hj2 : j < A.columns.length := hj
  unfold VectorXd.coeff MatrixXd.rowTimes MatrixXd.coeff MatrixXd.col
  rw [List.getD_eq_getElem _ _ (by simpa using hj2), List.getElem_map, dot_eq_sum,
    List.getD_eq_getElem _ _ hj2]
  rfl

/-- The value of `estimate_y` written out: the double sum `k(x)^T C_inv y`. -/
theorem estimate_y_eq_sum (R : Routines S) (self : PreferenceRegressor S) (x : VectorXd S) :
    self.estimate_y R x
      = ∑ j ∈ Finset.range self.C_inv.cols,
          (∑ i ∈ Finset.range (R.calc_k x self.X self.a self.b self.r).length,
            VectorXd.coeff (R.calc_k x self.X self.a self.b self.r) i * self.C_inv.coeff i j)
          * VectorXd.coeff self.y j := by
  unfold PreferenceRegressor.estimate_y
  simp only []
  rw [dot_eq_sum]
  have hlen : (MatrixXd.rowTimes (R.calc_k x self.X self.a self.b self.r) self.C_inv).length
      = self.C_inv.cols := by
    simp [MatrixXd.rowTimes, MatrixXd.cols]
  rw [hlen]
  apply Finset.sum_congr rfl
  intro j hj
  rw [rowTimes_coeff _ _ _ (Finset.mem_range.mp hj)]

/-- C2 (counterexample): on a regressor constructed from a matrix without columns, whose
fitted state is empty, `estimate_y` returns the number 0; it does not fail with
`NotFitted`. -/
theorem estimate_y_on_empty_state_counterexample :
    (PreferenceRegressor.ctor exampleMath exampleRoutines (⟨2, []⟩ : MatrixXd ℚ) [] [] true
        1 1 1 1 1 0 0).regressor.y = []
      ∧ (PreferenceRegressor.ctor exampleMath exampleRoutines (⟨2, []⟩ : MatrixXd ℚ) [] [] true
        1 1 1 1 1 0 0).regressor.estimate_y_outcome exampleRoutines [0, 0] = Outcome.value 0
      ∧ (PreferenceRegressor.ctor exampleMath exampleRoutines (⟨2, []⟩ : MatrixXd ℚ) [] [] true
        1 1 1 1 1 0 0).regressor.estimate_y_outcome exampleRoutines [0, 0]
          ≠ Outcome.NotFitted := by
  refine ⟨rfl, ?_, ?_⟩ <;> decide

/-- C2 (amended): `estimate_y` has no `NotFitted` path.  On every state, empty or not, it
returns the number `k(x)^T C_inv y`; on a regressor constructed from a matrix without
columns that number is 0, whatever the query point and the routines. -/
theorem estimate_y_always_returns_product (m : CMath S) (R : Routines S)
    (self : PreferenceRegressor S) (x : VectorXd S) (d : Nat) (D : List Preference)
    (w : VectorXd S) (use_MAP_hyperparameters : Bool)
    (default_a default_r default_b variance btl_scale a_uninit b_uninit : S) :
    self.estimate_y_outcome R x
        = Outcome.value
          (∑ j ∈ Finset.range self.C_inv.cols,
            (∑ i ∈ Finset.range (R.calc_k x self.X self.a self.b self.r).length,
              VectorXd.coeff (R.calc_k x self.X self.a self.b self.r) i * self.C_inv.coeff i j)
            * VectorXd.coeff self.y j)
      ∧ (PreferenceRegressor.ctor m R ⟨d, []⟩ D w use_MAP_hyperparameters default_a default_r
          default_b variance btl_scale a_uninit b_uninit).regressor.estimate_y_outcome R x
        = Outcome.value 0 := by
  constructor
  · unfold PreferenceRegressor.estimate_y_outcome
    rw [estimate_y_eq_sum]
  · rfl

/-- C3 (counterexample): on a regressor constructed from a matrix without columns whose
member `a` holds -1, the argument of the square root is -1 and `estimate_s` returns NaN,
not the root of `max(0, -1)`. -/
theorem estimate_s_unclamped_counterexample :
    (PreferenceRegressor.ctor exampleMath exampleRoutines (⟨2, []⟩ : MatrixXd ℚ) [] [] true
        1 1 1 1 1 (-1) 0).regressor.variance_arg exampleRoutines [0, 0] = -1
      ∧ (PreferenceRegressor.ctor exampleMath exampleRoutines (⟨2, []⟩ : MatrixXd ℚ) [] [] true
        1 1 1 1 1 (-1) 0).regressor.estimate_s exampleMath exampleRoutines [0, 0] = none
      ∧ (PreferenceRegressor.ctor exampleMath exampleRoutines (⟨2, []⟩ : MatrixXd ℚ) [] [] true
        1 1 1 1 1 (-1) 0).regressor.estimate_s exampleMath exampleRoutines [0, 0]
          ≠ some (exampleMath.sqrt (max 0
              ((PreferenceRegressor.ctor exampleMath exampleRoutines (⟨2, []⟩ : MatrixXd ℚ) [] []
                true 1 1 1 1 1 (-1) 0).regressor.variance_arg exampleRoutines [0, 0]))) := by
  have harg : (PreferenceRegressor.ctor exampleMath exampleRoutines (⟨2, []⟩ : MatrixXd ℚ) [] []
      true 1 1 1 1 1 (-1) 0).regressor.variance_arg exampleRoutines [0, 0] = -1 := by
    simp [PreferenceRegressor.variance_arg, PreferenceRegressor.ctor, MatrixXd.cols,
      MatrixXd.empty, MatrixXd.rowTimes, VectorXd.dot]
  have hs : (PreferenceRegressor.ctor exampleMath exampleRoutines (⟨2, []⟩ : MatrixXd ℚ) [] []
      true 1 1 1 1 1 (-1) 0).regressor.estimate_s exampleMath exampleRoutines [0, 0] = none := by
    unfold PreferenceRegressor.estimate_s std_sqrt
    rw [harg, if_pos (by norm_num)]
  refine ⟨harg, hs, ?_⟩
  rw [hs]
  exact fun h => Option.noConfusion h

/-- C3 (amended): `estimate_s` hands `a + b - k(x)^T C_inv k(x)` to `std::sqrt` without a
clamp.  When that argument is not negative the result is its root, which is also the root
of `max(0, argument)`; when it is negative the result is NaN. -/
theorem estimate_s_is_unclamped_sqrt (m : CMath S) (R : Routines S)
    (self : PreferenceRegressor S) (x : VectorXd S) :
    self.variance_arg R x
        = self.a + self.b
          - VectorXd.dot
              (MatrixXd.rowTimes (R.calc_k x self.X self.a self.b self.r) self.C_inv)
              (R.calc_k x self.X self.a self.b self.r)
      ∧ self.estimate_s m R x
        = (if self.variance_arg R x < 0 then none
          else some (m.sqrt (max 0 (self.variance_arg R x)))) := by
  refine ⟨rfl, ?_⟩
  unfold PreferenceRegressor.estimate_s std_sqrt
  by_cases h : self.variance_arg R x < 0
  · rw [if_pos h, if_pos h]
  · rw [if_neg h, if_neg h, max_eq_right (not_lt.mp h)]

/-! ## The gradient written by `objective` -/

omit [LinearOrderedField S] in
theorem foldl_preserves_length {α β : Type} (f : List β → α → List β)
    (hf : ∀ g a, (f g a).length = g.length) (l : List α) (g0 : List β) :
    (l.foldl f g0).length = g0.length := by
  induction l generalizing g0 with
  | nil => rfl
  | cons a l ih => rw [List.foldl_cons, ih, hf]

theorem objective_grad_y_data_length (R : Routines S) (D : List Preference)
    (w y : VectorXd S) (btl_scale : S) :
    (objective_grad_y_data R D w y btl_scale).length = y.length := by
  unfold objective_grad_y_data
  rw [foldl_preserves_length]
  · simp [VectorXd.Constant]
  · intro g i
    apply foldl_preserves_length
    intro g2 k
    exact List.length_set _ _ _

theorem objective_grad_y_length_le (R : Routines S) (regressor : PreferenceRegressor S)
    (x : VectorXd S) (C_inv : MatrixXd S) :
    (objective_grad_y R regressor.D regressor.w (x.take regressor.X.cols)
      regressor.m_btl_scale C_inv).length ≤ regressor.X.cols := by
  unfold objective_grad_y VectorXd.add
  rw [List.length_zipWith, objective_grad_y_data_length, List.length_take]
  omega

/-- The buffer on exit when the hyperparameters are fixed and a gradient is requested. -/
theorem objective_grad_fixed (m : CMath S) (R : Routines S)
    (regressor : PreferenceRegressor S) (x grad : VectorXd S)
    (huse : regressor.use_MAP_hyperparameters = false) (hlen : grad.length = x.length) :
    (objective m R regressor x grad).2
      = (((VectorXd.setBlock grad 0
            (objective_grad_y R regressor.D regressor.w (x.take regressor.X.cols)
              regressor.m_btl_scale (R.inverse (objective_C R regressor x))).length
            (objective_grad_y R regressor.D regressor.w (x.take regressor.X.cols)
              regressor.m_btl_scale (R.inverse (objective_C R regressor x)))).set
          (regressor.X.cols + 0) 0).set (regressor.X.cols + 1) 0).set
            (regressor.X.cols + 2) 0 := by
  unfold objective
  simp only [huse, hlen, if_true, Bool.false_eq_true, if_false]

/-- With fixed hyperparameters, `objective` leaves every entry of the buffer from index
`M + 3` on as it found it. -/
theorem objective_grad_fixed_tail (m : CMath S) (R : Routines S)
    (regressor : PreferenceRegressor S) (x grad : VectorXd S)
    (huse : regressor.use_MAP_hyperparameters = false) (hlen : grad.length = x.length)
    (p : Nat) (hp : regressor.X.cols + 3 ≤ p) :
    (objective m R regressor x grad).2[p]? = grad[p]? := by
  rw [objective_grad_fixed m R regressor x grad huse hlen]
  have hle := objective_grad_y_length_le R regressor x (R.inverse (objective_C R regressor x))
  rw [List.getElem?_set, if_neg (by omega), List.getElem?_set, if_neg (by omega),
    List.getElem?_set, if_neg (by omega), setBlock_getElem?, if_neg (by omega)]

/-- With fixed hyperparameters, `objective` writes 0 at the indices `M`, `M + 1` and
`M + 2` of the buffer. -/
theorem objective_grad_fixed_zeroed (m : CMath S) (R : Routines S)
    (regressor : PreferenceRegressor S) (x grad : VectorXd S)
    (huse : regressor.use_MAP_hyperparameters = false) (hlen : grad.length = x.length)
    (k : Nat) (hk : k < 3) (hlt : regressor.X.cols + k < grad.length) :
    (objective m R regressor x grad).2[regressor.X.cols + k]? = some 0 := by
  rw [objective_grad_fixed m R regressor x grad huse hlen]
  have hl : ∀ n src, (VectorXd.setBlock grad 0 n src).length = grad.length :=
    fun n src => setBlock_length grad 0 n src
  rcases k with _ | _ | _ | k
  · rw [List.getElem?_set, if_neg (by omega), List.getElem?_set, if_neg (by omega),
      List.getElem?_set, if_pos rfl, if_pos (by rw [hl]; exact hlt)]
  · rw [List.getElem?_set, if_neg (by omega), List.getElem?_set, if_pos rfl,
      if_pos (by rw [List.length_set, hl]; exact hlt)]
  · rw [List.getElem?_set, if_pos rfl,
      if_pos (by rw [List.length_set, List.length_set, hl]; exact hlt)]
  · omega

/-- C10 (evaluation at the failing input): two sample points of dimension 2 and fixed
hyperparameters, so that the hyperparameter entries of the gradient are those of index 2,
3, 4 and 5.  On a buffer filled with 7, `objective` writes 0 at the indices 2, 3 and 4,
and the entry of index 5 still holds 7 on exit. -/
theorem objective_leaves_stale_gradient_entry (m : CMath ℚ) (R : Routines ℚ) :
    VectorXd.coeff (objective m R exampleRegressor2d [0, 0, 1, 1, 1, 1] [7, 7, 7, 7, 7, 7]).2 2 = 0
      ∧ VectorXd.coeff
          (objective m R exampleRegressor2d [0, 0, 1, 1, 1, 1] [7, 7, 7, 7, 7, 7]).2 3 = 0
      ∧ VectorXd.coeff
          (objective m R exampleRegressor2d [0, 0, 1, 1, 1, 1] [7, 7, 7, 7, 7, 7]).2 4 = 0
      ∧ VectorXd.coeff
          (objective m R exampleRegressor2d [0, 0, 1, 1, 1, 1] [7, 7, 7, 7, 7, 7]).2 5 = 7 := by
  have hz := objective_grad_fixed_zeroed m R exampleRegressor2d [0, 0, 1, 1, 1, 1]
    [7, 7, 7, 7, 7, 7] rfl rfl
  have ht := objective_grad_fixed_tail m R exampleRegressor2d [0, 0, 1, 1, 1, 1]
    [7, 7, 7, 7, 7, 7] rfl rfl 5 (by decide)
  have h2 := hz 0 (by decide) (by decide)
  have h3 := hz 1 (by decide) (by decide)
  have h4 := hz 2 (by decide) (by decide)
  have hc : exampleRegressor2d.X.cols = 2 := rfl
  rw [hc] at h2 h3 h4
  unfold VectorXd.coeff
  simp only [List.getD_eq_getElem?_getD]
  refine ⟨?_, ?_, ?_, ?_⟩
  · rw [h2]; rfl
  · rw [h3]; rfl
  · rw [h4]; rfl
  · rw [ht]; rfl

/-- C8 (evaluation at the failing input): one preference (0, 1) of weight 2, BTL scale 1
and utilities (1, 0).  The value returned by `objective` contains the log likelihood at
scale 1, the gradient is built from `derivative_BTL` and `BTL` at scale 2. -/
theorem objective_value_and_gradient_use_different_scales (m : CMath ℚ) (R : Routines ℚ) :
    (objective m R exampleRegressorWeighted [1, 0, 1, 1, 1] [0, 0, 0, 0, 0]).1
        = m.log (R.BTL [1, 0] 1)
          + objective_y_term m R (R.calc_C ⟨1, [[0], [1]]⟩ 1 1 [1])
              (R.inverse (R.calc_C ⟨1, [[0], [1]]⟩ 1 1 [1])) 2 [1, 0]
      ∧ (objective m R exampleRegressorWeighted [1, 0, 1, 1, 1] [0, 0, 0, 0, 0]).2
        = (((VectorXd.setBlock [0, 0, 0, 0, 0] 0
              (objective_grad_y R [[0, 1]] [2] [1, 0] 1
                (R.inverse (R.calc_C ⟨1, [[0], [1]]⟩ 1 1 [1]))).length
              (objective_grad_y R [[0, 1]] [2] [1, 0] 1
                (R.inverse (R.calc_C ⟨1, [[0], [1]]⟩ 1 1 [1])))).set 2 0).set 3 0).set 4 0
      ∧ (∀ C_inv : MatrixXd ℚ,
          objective_grad_y R [[0, 1]] [2] [1, 0] 1 C_inv
            = VectorXd.add
                [VectorXd.coeff
                    (VectorXd.divScalar (R.derivative_BTL [1, 0] 2) (R.BTL [1, 0] 2)) 0,
                 VectorXd.coeff
                    (VectorXd.divScalar (R.derivative_BTL [1, 0] 2) (R.BTL [1, 0] 2)) 1]
                (MatrixXd.mulVec (MatrixXd.neg C_inv) [1, 0])) := by
  refine ⟨?_, ?_, ?_⟩
  · simp [objective, exampleRegressorWeighted, objective_data_term, calc_log_likelihood,
      objective_C, objective_a, objective_b, objective_r, VectorXd.coeff, VectorXd.Constant,
      MatrixXd.cols, List.range_succ]
  · exact objective_grad_fixed m R exampleRegressorWeighted [1, 0, 1, 1, 1] [0, 0, 0, 0, 0]
      rfl rfl
  · intro C_inv
    simp [objective_grad_y, objective_grad_y_data, VectorXd.coeff, VectorXd.Constant,
      VectorXd.divScalar, List.range_succ]

/-! ## The gradient entries of the hyperparameters -/

/-- A loop `for (i = 0; i < n; ++i) v(off + i) = f(i)`, read entry by entry. -/
theorem foldl_set_off_getElem? (f : Nat → S) (off n : Nat) (v : List S) (p : Nat) :
    ((List.range n).foldl (fun g i => g.set (off + i) (f i)) v)[p]?
      = if off ≤ p ∧ p < off + n ∧ p < v.length then some (f (p - off)) else v[p]? :=
  foldl_set_getElem? (fun i _ => f i) off n v p

/-- A loop `for (i = 0; i < n; ++i) v(i) += t(i)`, read entry by entry. -/
theorem foldl_add_getElem? (t : Nat → S) (n : Nat) (v : List S) (p : Nat) :
    ((List.range n).foldl (fun grad i => grad.set i (VectorXd.coeff grad i + t i)) v)[p]?
      = if p < n ∧ p < v.length then some (VectorXd.coeff v p + t p) else v[p]? := by
  have h := foldl_set_getElem? (fun i c => c + t i) 0 n v p
  simp only [Nat.zero_add, Nat.zero_le, true_and, Nat.sub_zero] at h
  unfold VectorXd.coeff
  simp only [List.getD_eq_getElem?_getD]
  exact h

theorem calc_grad_r_length (m : CMath S) (R : Routines S) (y : VectorXd S)
    (C_inv X : MatrixXd S) (a b : S) (r : VectorXd S) (mean variance : S) :
    (calc_grad_r m R y C_inv X a b r mean variance).length = r.length := by
  unfold calc_grad_r
  simp only []
  rw [foldl_preserves_length _ (fun g i => List.length_set _ _ _),
    foldl_preserves_length _ (fun g i => List.length_set _ _ _)]
  simp [VectorXd.Constant]

/-- Entry `i` of the vector returned by `calc_grad_r`: the kernel term of the first loop
plus the prior term of the second. -/
theorem calc_grad_r_coeff (m : CMath S) (R : Routines S) (y : VectorXd S)
    (C_inv X : MatrixXd S) (a b : S) (r : VectorXd S) (mean variance : S) (i : Nat)
    (hi : i < r.length) :
    VectorXd.coeff (calc_grad_r m R y C_inv X a b r mean variance) i
      = log_p_f_theta_grad y C_inv (R.calc_C_grad_r_i X a b r i)
        + (m.log mean - variance - m.log (VectorXd.coeff r i))
          / (variance * VectorXd.coeff r i) := by
  have h1 := foldl_add_getElem?
    (fun i => log_p_f_theta_grad y C_inv (R.calc_C_grad_r_i X a b r i)) r.length
    (VectorXd.Constant r.length (0 : S)) i
  have hl1 : (VectorXd.Constant r.length (0 : S)).length = r.length := by
    simp [VectorXd.Constant]
  rw [if_pos ⟨hi, by rw [hl1]; exact hi⟩] at h1
  have h2 := foldl_add_getElem?
    (fun i => (m.log mean - variance - m.log (VectorXd.coeff r i))
      / (variance * VectorXd.coeff r i)) r.length
    ((List.range r.length).foldl
      (fun grad i => grad.set i
        (VectorXd.coeff grad i + log_p_f_theta_grad y C_inv (R.calc_C_grad_r_i X a b r i)))
      (VectorXd.Constant r.length (0 : S))) i
  have hl2 : ((List.range r.length).foldl
      (fun grad i => grad.set i
        (VectorXd.coeff grad i + log_p_f_theta_grad y C_inv (R.calc_C_grad_r_i X a b r i)))
      (VectorXd.Constant r.length (0 : S))).length = r.length := by
    rw [foldl_preserves_length _ (fun g i => List.length_set _ _ _), hl1]
  rw [if_pos ⟨hi, by rw [hl2]; exact hi⟩] at h2
  have h0 : VectorXd.coeff (VectorXd.Constant r.length (0 : S)) i = 0 := by
    simp [VectorXd.coeff, VectorXd.Constant, List.getElem?_replicate, hi]
  have hc1 : VectorXd.coeff ((List.range r.length).foldl
      (fun grad i => grad.set i
        (VectorXd.coeff grad i + log_p_f_theta_grad y C_inv (R.calc_C_grad_r_i X a b r i)))
      (VectorXd.Constant r.length (0 : S))) i
        = 0 + log_p_f_theta_grad y C_inv (R.calc_C_grad_r_i X a b r i) := by
    rw [h0] at h1
    show List.getD _ i 0 = _
    rw [List.getD_eq_getElem?_getD, h1]
    rfl
  have hfinal : (calc_grad_r m R y C_inv X a b r mean variance)[i]?
      = some (0 + log_p_f_theta_grad y C_inv (R.calc_C_grad_r_i X a b r i)
        + (m.log mean - variance - m.log (VectorXd.coeff r i))
          / (variance * VectorXd.coeff r i)) := by
    rw [← hc1]
    exact h2
  unfold VectorXd.coeff at hfinal ⊢
  rw [List.getD_eq_getElem?_getD, hfinal, zero_add]
  rfl

/-- The buffer on exit when the hyperparameters are free and a gradient is requested. -/
theorem objective_grad_free (m : CMath S) (R : Routines S)
    (regressor : PreferenceRegressor S) (x grad : VectorXd S)
    (huse : regressor.use_MAP_hyperparameters = true) (hlen : grad.length = x.length) :
    (objective m R regressor x grad).2
      = (List.range
          (calc_grad_r m R (x.take regressor.X.cols) (R.inverse (objective_C R regressor x))
            regressor.X (objective_a regressor x) (objective_b regressor x)
            (objective_r regressor x) regressor.m_default_r regressor.m_variance).length).foldl
          (fun g i => g.set (regressor.X.cols + 2 + i)
            (VectorXd.coeff
              (calc_grad_r m R (x.take regressor.X.cols) (R.inverse (objective_C R regressor x))
                regressor.X (objective_a regressor x) (objective_b regressor x)
                (objective_r regressor x) regressor.m_default_r regressor.m_variance) i))
          (((VectorXd.setBlock grad 0
              (objective_grad_y R regressor.D regressor.w (x.take regressor.X.cols)
                regressor.m_btl_scale (R.inverse (objective_C R regressor x))).length
              (objective_grad_y R regressor.D regressor.w (x.take regressor.X.cols)
                regressor.m_btl_scale (R.inverse (objective_C R regressor x)))).set
            (regressor.X.cols + 0)
            (calc_grad_a m R (x.take regressor.X.cols) (R.inverse (objective_C R regressor x))
              regressor.X (objective_a regressor x) (objective_b regressor x)
              (objective_r regressor x) regressor.m_default_a regressor.m_variance)).set
            (regressor.X.cols + 1)
            (calc_grad_b m R (x.take regressor.X.cols) (R.inverse (objective_C R regressor x))
              regressor.X (objective_a regressor x) (objective_b regressor x)
              (objective_r regressor x) regressor.m_default_b regressor.m_variance)) := by
  unfold objective
  simp only [huse, hlen, if_true]

omit [LinearOrderedField S] in
theorem objective_r_length (regressor : PreferenceRegressor S) (x : VectorXd S)
    (hx : x.length = regressor.X.cols + 2 + regressor.X.rows) :
    (objective_r regressor x).length = regressor.X.rows := by
  unfold objective_r
  by_cases h : regressor.use_MAP_hyperparameters = true
  · simp only [h, if_true, VectorXd.block, List.length_take, List.length_drop]
    omega
  · simp [h, VectorXd.Constant]

/-- The three kinds of hyperparameter entries of the gradient, with free hyperparameters,
read off the buffer on exit. -/
theorem objective_grad_free_entries (m : CMath S) (R : Routines S)
    (regressor : PreferenceRegressor S) (x grad : VectorXd S)
    (huse : regressor.use_MAP_hyperparameters = true)
    (hx : x.length = regressor.X.cols + 2 + regressor.X.rows)
    (hlen : grad.length = x.length) :
    VectorXd.coeff (objective m R regressor x grad).2 (regressor.X.cols + 0)
        = calc_grad_a m R (x.take regressor.X.cols) (R.inverse (objective_C R regressor x))
            regressor.X (objective_a regressor x) (objective_b regressor x)
            (objective_r regressor x) regressor.m_default_a regressor.m_variance
      ∧ VectorXd.coeff (objective m R regressor x grad).2 (regressor.X.cols + 1)
        = calc_grad_b m R (x.take regressor.X.cols) (R.inverse (objective_C R regressor x))
            regressor.X (objective_a regressor x) (objective_b regressor x)
            (objective_r regressor x) regressor.m_default_b regressor.m_variance
      ∧ ∀ i, i < regressor.X.rows →
        VectorXd.coeff (objective m R regressor x grad).2 (regressor.X.cols + 2 + i)
          = VectorXd.coeff
              (calc_grad_r m R (x.take regressor.X.cols) (R.inverse (objective_C R regressor x))
                regressor.X (objective_a regressor x) (objective_b regressor x)
                (objective_r regressor x) regressor.m_default_r regressor.m_variance) i := by
  have hle := objective_grad_y_length_le R regressor x (R.inverse (objective_C R regressor x))
  have hrl := calc_grad_r_length m R (x.take regressor.X.cols)
    (R.inverse (objective_C R regressor x)) regressor.X (objective_a regressor x)
    (objective_b regressor x) (objective_r regressor x) regressor.m_default_r
    regressor.m_variance
  rw [objective_r_length regressor x hx] at hrl
  have hl : ∀ n src, (VectorXd.setBlock grad 0 n src).length = grad.length :=
    fun n src => setBlock_length grad 0 n src
  rw [objective_grad_free m R regressor x grad huse hlen, hrl]
  unfold VectorXd.coeff
  simp only [List.getD_eq_getElem?_getD]
  refine ⟨?_, ?_, ?_⟩
  · rw [foldl_set_off_getElem?, if_neg (by omega), List.getElem?_set, if_neg (by omega),
      List.getElem?_set, if_pos rfl, if_pos (by rw [hl]; omega)]
    rfl
  · rw [foldl_set_off_getElem?, if_neg (by omega), List.getElem?_set, if_pos rfl,
      if_pos (by rw [List.length_set, hl]; omega)]
    rfl
  · intro i hi
    rw [foldl_set_off_getElem?,
      if_pos ⟨by omega, by omega, by rw [List.length_set, List.length_set, hl]; omega⟩]
    simp only [Nat.add_sub_cancel_left, Option.getD_some]

/-! ## The kernel term of the hyperparameter gradient, written out -/

theorem rowTimes_length (u : VectorXd S) (A : MatrixXd S) :
    (MatrixXd.rowTimes u A).length = A.cols := by
  simp [MatrixXd.rowTimes, MatrixXd.cols]

theorem scale_coeff (c : S) (v : VectorXd S) (i : Nat) :
    VectorXd.coeff (VectorXd.scale c v) i = c * VectorXd.coeff v i := by
  unfold VectorXd.coeff VectorXd.scale
  have h := List.getD_map (l := v) (d := (0 : S)) (n := i) (fun p => c * p)
  simp only [mul_zero] at h
  exact h

theorem scale_length (c : S) (v : VectorXd S) : (VectorXd.scale c v).length = v.length := by
  simp [VectorXd.scale]

theorem list_sum_map_range (f : Nat → S) (n : Nat) :
    ((List.range n).map f).sum = ∑ i ∈ Finset.range n, f i := by
  induction n with
  | zero => simp
  | succ n ih => simp [List.range_succ, Finset.sum_range_succ, ih]

theorem row_coeff (A : MatrixXd S) (i j : Nat) (hj : j < A.cols) :
    VectorXd.coeff (A.row i) j = A.coeff i j := by
  have hj2 : j < A.columns.length := hj
  unfold VectorXd.coeff MatrixXd.row MatrixXd.coeff MatrixXd.col
  rw [List.getD_eq_getElem _ _ (by simpa using hj2), List.getElem_map,
    List.getD_eq_getElem _ _ hj2]
  rfl

/-- The diagonal coefficient `i` of a product `A * B`, for a row index `i` of `A`. -/
theorem mul_coeff_diag (A B : MatrixXd S) (i : Nat) (hi : i < A.rows) :
    (MatrixXd.mul A B).coeff i i = ∑ j ∈ Finset.range A.cols, A.coeff i j * B.coeff j i := by
  by_cases hb : i < B.columns.length
  · have hcol : (MatrixXd.mul A B).col i = A.mulVec (B.col i) := by
      unfold MatrixXd.col MatrixXd.mul
      simp only []
      rw [List.getD_eq_getElem _ _ (by simpa using hb), List.getElem_map,
        List.getD_eq_getElem _ _ hb]
    unfold MatrixXd.coeff
    rw [hcol]
    unfold MatrixXd.mulVec
    rw [List.getD_eq_getElem _ _ (by simpa using hi), List.getElem_map, List.getElem_range,
      dot_eq_sum]
    have hlen : (A.row i).length = A.cols := by simp [MatrixXd.row, MatrixXd.cols]
    rw [hlen]
    apply Finset.sum_congr rfl
    intro j hj
    rw [row_coeff A i j (Finset.mem_range.mp hj)]
    rfl
  · have hb2 : B.columns.length ≤ i := not_lt.mp hb
    have hcolB : B.col i = [] := by
      unfold MatrixXd.col
      exact List.getD_eq_default _ _ hb2
    have hcol : (MatrixXd.mul A B).col i = [] := by
      unfold MatrixXd.col MatrixXd.mul
      simp only []
      exact List.getD_eq_default _ _ (by simpa using hb2)
    have hz : ∀ j, B.coeff j i = 0 := by
      intro j
      unfold MatrixXd.coeff
      rw [hcolB]
      rfl
    have hr : ∑ j ∈ Finset.range A.cols, A.coeff i j * B.coeff j i = 0 := by
      simp only [hz, mul_zero, Finset.sum_const_zero]
    rw [hr]
    show ((MatrixXd.mul A B).col i).getD i 0 = 0
    rw [hcol]
    rfl

/-- The trace of a product as a double sum. -/
theorem trace_mul_eq_sum (A B : MatrixXd S) :
    (MatrixXd.mul A B).trace
      = ∑ i ∈ Finset.range A.rows, ∑ j ∈ Finset.range A.cols, A.coeff i j * B.coeff j i := by
  unfold MatrixXd.trace
  rw [list_sum_map_range]
  have hrows : (MatrixXd.mul A B).rows = A.rows := rfl
  rw [hrows]
  apply Finset.sum_congr rfl
  intro i hi
  exact mul_coeff_diag A B i (Finset.mem_range.mp hi)

/-- The expression `0.5 * y^T * C_inv * C_grad * C_inv * y - 0.5 * trace(C_inv * C_grad)`
of `calc_grad_a`, `calc_grad_b` and `calc_grad_r`, written out coefficient by
coefficient. -/
theorem log_p_f_theta_grad_eq_sum (y : VectorXd S) (C_inv C_grad : MatrixXd S) :
    log_p_f_theta_grad y C_inv C_grad
      = (∑ l ∈ Finset.range C_inv.cols,
          (∑ k ∈ Finset.range C_grad.cols,
            (∑ j ∈ Finset.range C_inv.cols,
              (∑ i ∈ Finset.range y.length,
                0.5 * VectorXd.coeff y i * C_inv.coeff i j) * C_grad.coeff j k)
            * C_inv.coeff k l) * VectorXd.coeff y l)
        - 0.5 * ∑ i ∈ Finset.range C_inv.rows, ∑ j ∈ Finset.range C_inv.cols,
            C_inv.coeff i j * C_grad.coeff j i := by
  unfold log_p_f_theta_grad
  rw [trace_mul_eq_sum, dot_eq_sum, rowTimes_length]
  congr 1
  apply Finset.sum_congr rfl
  intro l hl
  rw [rowTimes_coeff _ _ _ (Finset.mem_range.mp hl), rowTimes_length]
  congr 1
  apply Finset.sum_congr rfl
  intro k hk
  rw [rowTimes_coeff _ _ _ (Finset.mem_range.mp hk), rowTimes_length]
  congr 1
  apply Finset.sum_congr rfl
  intro j hj
  rw [rowTimes_coeff _ _ _ (Finset.mem_range.mp hj), scale_length]
  congr 1
  apply Finset.sum_congr rfl
  intro i _
  rw [scale_coeff]

end Proofs

/-! ## The log-normal prior and its derivative -/

/-- On the reals, with the real `log`, `exp` and `sqrt`: for a positive variance, the
logarithm of the log-normal density has derivative `(mu - v - log theta) / (v * theta)`
at every positive `theta`. -/
theorem log_log_normal_hasDerivAt (mu v theta : ℝ) (htheta : 0 < theta) (hv : 0 < v) :
    HasDerivAt
      (fun t => Real.log (log_normal ⟨Real.log, Real.exp, Real.sqrt, Real.pi⟩ t mu v))
      ((mu - v - Real.log theta) / (v * theta)) theta := by
  have hc : 0 < Real.sqrt (2 * Real.pi * v) :=
    Real.sqrt_pos.mpr (mul_pos (mul_pos two_pos Real.pi_pos) hv)
  have key : ∀ t : ℝ, 0 < t →
      Real.log (log_normal ⟨Real.log, Real.exp, Real.sqrt, Real.pi⟩ t mu v)
        = -Real.log t - Real.log (Real.sqrt (2 * Real.pi * v))
          + -((Real.log t - mu) ^ 2) / (2 * v) := by
    intro t ht
    unfold log_normal
    simp only []
    rw [Real.log_mul (one_div_ne_zero (mul_ne_zero ht.ne' hc.ne')) (Real.exp_ne_zero _),
      Real.log_exp, one_div, Real.log_inv, Real.log_mul ht.ne' hc.ne']
    ring
  have hlog := Real.hasDerivAt_log htheta.ne'
  have h1 := (hlog.neg).sub_const (Real.log (Real.sqrt (2 * Real.pi * v)))
  have h2 := ((((hlog.sub_const mu).pow 2).neg).div_const (2 * v))
  have h3 := h1.add h2
  have h4 : HasDerivAt
      (fun t => -Real.log t - Real.log (Real.sqrt (2 * Real.pi * v))
        + -((Real.log t - mu) ^ 2) / (2 * v))
      ((mu - v - Real.log theta) / (v * theta)) theta := by
    convert h3 using 1
    field_simp
    ring
  apply h4.congr_of_eventuallyEq
  filter_upwards [lt_mem_nhds htheta] with t ht
  exact key t ht

/-- C9: with free hyperparameters and a gradient requested, `objective` reads `a`, `b`
and `r` from the candidate and builds `C` and `C_inv` from them, and the entry it writes
for each of `a`, `b` and `r_i` is `0.5 y^T C_inv (dC/dtheta) C_inv y
- 0.5 trace(C_inv dC/dtheta)`, here written out as sums over the coefficients, plus
`(ln m - v - ln theta) / (v theta)`, where `m` is the default of the hyperparameter and `v`
the prior variance; the value returned adds `log (log_normal(theta, ln m, v))` for each of
them; and on the reals, for positive `v` and `theta`, that prior term is the derivative in
`theta` of `log (log_normal(theta, ln m, v))`. -/
theorem objective_hyperparameter_gradient (m : CMath ℝ) (R : Routines ℝ)
    (regressor : PreferenceRegressor ℝ) (x grad : VectorXd ℝ) (mean v theta : ℝ)
    (hm : m = ⟨Real.log, Real.exp, Real.sqrt, Real.pi⟩)
    (huse : regressor.use_MAP_hyperparameters = true)
    (hx : x.length = regressor.X.cols + 2 + regressor.X.rows)
    (hlen : grad.length = x.length) (htheta : 0 < theta) (hv : 0 < v) :
    (objective_a regressor x = VectorXd.coeff x (regressor.X.cols + 0)
        ∧ objective_b regressor x = VectorXd.coeff x (regressor.X.cols + 1)
        ∧ objective_r regressor x = VectorXd.block x (regressor.X.cols + 2) regressor.X.rows
        ∧ objective_C R regressor x
          = R.calc_C regressor.X (VectorXd.coeff x (regressor.X.cols + 0))
              (VectorXd.coeff x (regressor.X.cols + 1))
              (VectorXd.block x (regressor.X.cols + 2) regressor.X.rows))
      ∧ VectorXd.coeff (objective m R regressor x grad).2 (regressor.X.cols + 0)
        = ((∑ l ∈ Finset.range (R.inverse (objective_C R regressor x)).cols,
              (∑ k ∈ Finset.range
                  (R.calc_C_grad_a regressor.X (objective_a regressor x)
                    (objective_b regressor x) (objective_r regressor x)).cols,
                (∑ j ∈ Finset.range (R.inverse (objective_C R regressor x)).cols,
                  (∑ i ∈ Finset.range (x.take regressor.X.cols).length,
                    0.5 * VectorXd.coeff (x.take regressor.X.cols) i
                      * (R.inverse (objective_C R regressor x)).coeff i j)
                  * (R.calc_C_grad_a regressor.X (objective_a regressor x)
                      (objective_b regressor x) (objective_r regressor x)).coeff j k)
                * (R.inverse (objective_C R regressor x)).coeff k l)
              * VectorXd.coeff (x.take regressor.X.cols) l)
            - 0.5 * ∑ i ∈ Finset.range (R.inverse (objective_C R regressor x)).rows,
                ∑ j ∈ Finset.range (R.inverse (objective_C R regressor x)).cols,
                  (R.inverse (objective_C R regressor x)).coeff i j
                    * (R.calc_C_grad_a regressor.X (objective_a regressor x)
                        (objective_b regressor x) (objective_r regressor x)).coeff j i)
          + (m.log regressor.m_default_a - regressor.m_variance
              - m.log (objective_a regressor x))
            / (regressor.m_variance * objective_a regressor x)
      ∧ VectorXd.coeff (objective m R regressor x grad).2 (regressor.X.cols + 1)
        = ((∑ l ∈ Finset.range (R.inverse (objective_C R regressor x)).cols,
              (∑ k ∈ Finset.range
                  (R.calc_C_grad_b regressor.X (objective_a regressor x)
                    (objective_b regressor x) (objective_r regressor x)).cols,
                (∑ j ∈ Finset.range (R.inverse (objective_C R regressor x)).cols,
                  (∑ i ∈ Finset.range (x.take regressor.X.cols).length,
                    0.5 * VectorXd.coeff (x.take regressor.X.cols) i
                      * (R.inverse (objective_C R regressor x)).coeff i j)
                  * (R.calc_C_grad_b regressor.X (objective_a regressor x)
                      (objective_b regressor x) (objective_r regressor x)).coeff j k)
                * (R.inverse (objective_C R regressor x)).coeff k l)
              * VectorXd.coeff (x.take regressor.X.cols) l)
            - 0.5 * ∑ i ∈ Finset.range (R.inverse (objective_C R regressor x)).rows,
                ∑ j ∈ Finset.range (R.inverse (objective_C R regressor x)).cols,
                  (R.inverse (objective_C R regressor x)).coeff i j
                    * (R.calc_C_grad_b regressor.X (objective_a regressor x)
                        (objective_b regressor x) (objective_r regressor x)).coeff j i)
          + (m.log regressor.m_default_b - regressor.m_variance
              - m.log (objective_b regressor x))
            / (regressor.m_variance * objective_b regressor x)
      ∧ (∀ n, n < regressor.X.rows →
          VectorXd.coeff (objective m R regressor x grad).2 (regressor.X.cols + 2 + n)
            = ((∑ l ∈ Finset.range (R.inverse (objective_C R regressor x)).cols,
                  (∑ k ∈ Finset.range
                      (R.calc_C_grad_r_i regressor.X (objective_a regressor x)
                        (objective_b regressor x) (objective_r regressor x) n).cols,
                    (∑ j ∈ Finset.range (R.inverse (objective_C R regressor x)).cols,
                      (∑ i ∈ Finset.range (x.take regressor.X.cols).length,
                        0.5 * VectorXd.coeff (x.take regressor.X.cols) i
                          * (R.inverse (objective_C R regressor x)).coeff i j)
                      * (R.calc_C_grad_r_i regressor.X (objective_a regressor x)
                          (objective_b regressor x) (objective_r regressor x) n).coeff j k)
                    * (R.inverse (objective_C R regressor x)).coeff k l)
                  * VectorXd.coeff (x.take regressor.X.cols) l)
                - 0.5 * ∑ i ∈ Finset.range (R.inverse (objective_C R regressor x)).rows,
                    ∑ j ∈ Finset.range (R.inverse (objective_C R regressor x)).cols,
                      (R.inverse (objective_C R regressor x)).coeff i j
                        * (R.calc_C_grad_r_i regressor.X (objective_a regressor x)
                            (objective_b regressor x) (objective_r regressor x) n).coeff j i)
              + (m.log regressor.m_default_r - regressor.m_variance
                  - m.log (VectorXd.coeff (objective_r regressor x) n))
                / (regressor.m_variance * VectorXd.coeff (objective_r regressor x) n))
      ∧ (objective m R regressor x grad).1
        = (List.range (objective_r regressor x).length).foldl
            (fun obj i => obj + m.log (log_normal m (VectorXd.coeff (objective_r regressor x) i)
              (m.log regressor.m_default_r) regressor.m_variance))
            (objective_data_term m R regressor.D regressor.w (x.take regressor.X.cols)
                regressor.m_btl_scale
              + objective_y_term m R (objective_C R regressor x)
                  (R.inverse (objective_C R regressor x)) regressor.X.cols
                  (x.take regressor.X.cols)
              + m.log (log_normal m (objective_a regressor x) (m.log regressor.m_default_a)
                  regressor.m_variance)
              + m.log (log_normal m (objective_b regressor x) (m.log regressor.m_default_b)
                  regressor.m_variance))
      ∧ HasDerivAt (fun t => m.log (log_normal m t (m.log mean) v))
          ((m.log mean - v - m.log theta) / (v * theta)) theta := by
  have hent := objective_grad_free_entries m R regressor x grad huse hx hlen
  have ha : objective_a regressor x = VectorXd.coeff x (regressor.X.cols + 0) := by
    unfold objective_a
    rw [if_pos huse]
  have hb : objective_b regressor x = VectorXd.coeff x (regressor.X.cols + 1) := by
    unfold objective_b
    rw [if_pos huse]
  have hr : objective_r regressor x
      = VectorXd.block x (regressor.X.cols + 2) regressor.X.rows := by
    unfold objective_r
    rw [if_pos huse]
  refine ⟨⟨ha, hb, hr, ?_⟩, ?_, ?_, ?_, ?_, ?_⟩
  · unfold objective_C
    rw [ha, hb, hr]
  · rw [hent.1, ← log_p_f_theta_grad_eq_sum]
    rfl
  · rw [hent.2.1, ← log_p_f_theta_grad_eq_sum]
    rfl
  · intro n hn
    rw [hent.2.2 n hn, ← log_p_f_theta_grad_eq_sum]
    exact calc_grad_r_coeff m R _ _ _ _ _ _ _ _ n
      (by rw [objective_r_length regressor x hx]; exact hn)
  · unfold objective
    simp only [huse, if_true]
  · subst hm
    exact log_log_normal_hasDerivAt (Real.log mean) v theta htheta hv

/-- C9, on a concrete input: three one-dimensional sample points, free hyperparameters,
the candidate (2, 0, 0, 1, 1, 1), that is `y = (2, 0, 0)` and `a = b = r = 1`, defaults 1
and prior variance 1.  The kernel matrix is twice the identity, so the kernel term of `a`
and of `b` is `0.5 * 4 / 4 - 0.5 * 3 / 2 = -1/4` and that of `r` is 0; the prior term is
-1; the entries written are -5/4, -5/4 and -1. -/
theorem objective_hyperparameter_gradient_witness :
    (exampleRegressor ℝ true).use_MAP_hyperparameters = true
      ∧ ([2, 0, 0, 1, 1, 1] : List ℝ).length
        = (exampleRegressor ℝ true).X.cols + 2 + (exampleRegressor ℝ true).X.rows
      ∧ (0 : ℝ) < 2 ∧ (0 : ℝ) < 1
      ∧ objective_a (exampleRegressor ℝ true) [2, 0, 0, 1, 1, 1] = 1
      ∧ VectorXd.coeff
          (objective ⟨Real.log, Real.exp, Real.sqrt, Real.pi⟩ exampleRoutines
            (exampleRegressor ℝ true) [2, 0, 0, 1, 1, 1] [0, 0, 0, 0, 0, 0]).2 3 = -5 / 4
      ∧ VectorXd.coeff
          (objective ⟨Real.log, Real.exp, Real.sqrt, Real.pi⟩ exampleRoutines
            (exampleRegressor ℝ true) [2, 0, 0, 1, 1, 1] [0, 0, 0, 0, 0, 0]).2 4 = -5 / 4
      ∧ VectorXd.coeff
          (objective ⟨Real.log, Real.exp, Real.sqrt, Real.pi⟩ exampleRoutines
            (exampleRegressor ℝ true) [2, 0, 0, 1, 1, 1] [0, 0, 0, 0, 0, 0]).2 5 = -1
      ∧ HasDerivAt
          (fun t => Real.log (log_normal ⟨Real.log, Real.exp, Real.sqrt, Real.pi⟩ t
            (Real.log 1) 1))
          ((Real.log 1 - 1 - Real.log 2) / (1 * 2)) 2 := by
  have h := objective_hyperparameter_gradient ⟨Real.log, Real.exp, Real.sqrt, Real.pi⟩
    exampleRoutines (exampleRegressor ℝ true) [2, 0, 0, 1, 1, 1] [0, 0, 0, 0, 0, 0] 1 1 2
    rfl rfl rfl rfl (by norm_num) (by norm_num)
  obtain ⟨⟨ha, hb, hr, hC⟩, hga, hgb, hgr, -, hderiv⟩ := h
  have hcols : (exampleRegressor ℝ true).X.cols = 3 := rfl
  have hrows : (exampleRegressor ℝ true).X.rows = 1 := rfl
  have ha1 : objective_a (exampleRegressor ℝ true) [2, 0, 0, 1, 1, 1] = 1 := by
    rw [ha]; rfl
  have hb1 : objective_b (exampleRegressor ℝ true) [2, 0, 0, 1, 1, 1] = 1 := by
    rw [hb]; rfl
  have hr1 : objective_r (exampleRegressor ℝ true) [2, 0, 0, 1, 1, 1] = [1] := by
    rw [hr]; rfl
  have hCinv : (exampleRoutines : Routines ℝ).inverse
      (objective_C exampleRoutines (exampleRegressor ℝ true) [2, 0, 0, 1, 1, 1])
        = ⟨3, [[1 / 2, 0, 0], [0, 1 / 2, 0], [0, 0, 1 / 2]]⟩ := by
    rw [hC]
    simp [exampleRoutines, exampleRegressor, exampleX, MatrixXd.cols, VectorXd.coeff,
      VectorXd.block, List.range_succ]
    norm_num
  have hGa : (exampleRoutines : Routines ℝ).calc_C_grad_a (exampleRegressor ℝ true).X 1 1 [1]
      = ⟨3, [[1, 0, 0], [0, 1, 0], [0, 0, 1]]⟩ := by
    simp [exampleRoutines, exampleRegressor, exampleX, MatrixXd.cols, List.range_succ]
  have hGb : (exampleRoutines : Routines ℝ).calc_C_grad_b (exampleRegressor ℝ true).X 1 1 [1]
      = ⟨3, [[1, 0, 0], [0, 1, 0], [0, 0, 1]]⟩ := by
    simp [exampleRoutines, exampleRegressor, exampleX, MatrixXd.cols, List.range_succ]
  have hGr : (exampleRoutines : Routines ℝ).calc_C_grad_r_i (exampleRegressor ℝ true).X 1 1
      [1] 0 = ⟨3, [[0, 0, 0], [0, 0, 0], [0, 0, 0]]⟩ := by
    simp [exampleRoutines, exampleRegressor, exampleX, MatrixXd.cols, List.range_succ]
  have hy : List.take 3 ([2, 0, 0, 1, 1, 1] : List ℝ) = [2, 0, 0] := rfl
  refine ⟨rfl, rfl, by norm_num, by norm_num, ha1, ?_, ?_, ?_, hderiv⟩
  · rw [hcols] at hga
    refine Eq.trans hga ?_
    rw [ha1, hb1, hr1, hCinv, hGa, hy]
    simp [exampleRegressor, MatrixXd.cols, MatrixXd.coeff, MatrixXd.col, VectorXd.coeff,
      Finset.sum_range_succ]
    norm_num
  · rw [hcols] at hgb
    refine Eq.trans hgb ?_
    rw [ha1, hb1, hr1, hCinv, hGb, hy]
    simp [exampleRegressor, MatrixXd.cols, MatrixXd.coeff, MatrixXd.col, VectorXd.coeff,
      Finset.sum_range_succ]
    norm_num
  · have h0 := hgr 0 (by rw [hrows]; exact Nat.zero_lt_one)
    rw [hcols] at h0
    refine Eq.trans h0 ?_
    rw [ha1, hb1, hr1, hCinv, hGr, hy]
    simp [exampleRegressor, MatrixXd.cols, MatrixXd.coeff, MatrixXd.col, VectorXd.coeff,
      Finset.sum_range_succ]

end sequential_line_search
